import Mathlib

/-!
# Bound service-account token validation

A shallow embedding of `edge/pkg/metamanager/metaserver/auth/claims.go`
(package `auth`): the private claims carried by a service-account token and
`validator.Validate`, which decides whether such a token is still bound to
live objects of the backing store.

Conventions of the embedding.

* `time.Time` and `time.Duration` are integers (nanoseconds); `Time.Add` is
  addition and `Time.Before` the strict order.
* A Go `error` is a value of `GoError`; `nil` is `none`, respectively the
  `Except.ok` side of a lookup.
* The store behind `serviceaccount.ServiceAccountTokenGetter` is a record of
  three lookup functions.  Each is called at most once per `Validate`, so a
  function of the arguments describes it; a lookup returns either an object
  or an error.
* Package `jwt` of go-jose is a collaborator whose source is not part of the
  modelled file: the two things `Validate` uses from it, the constant
  `DefaultLeeway` and the method `Claims.Validate`, are the fields of a
  `JwtPackage` record that `Validate` receives.
* The package variable `now` is read once; its value is the parameter `now`.
* `Validate` returns, next to its Go result, the sequence of calls it made to
  its collaborators, in order.  The `klog` calls are left out: they do not
  influence the result or the calls.
* The pointers `public` and `private` are taken to be non-nil.
-/

namespace Auth

/-! ## Time -/

/-- An instant (`time.Time`), in nanoseconds. -/
abbrev Time := Int

/-- A span of time (`time.Duration`), in nanoseconds. -/
abbrev Duration := Int

/-- The method `Time.Add` of package `time`. -/
def Time.Add (t : Time) (d : Duration) : Time := t + d

/-- The method `Time.Before` of package `time`: strictly earlier. -/
def Time.Before (t u : Time) : Bool := decide (t < u)

/-! ## Errors -/

/-- A Go `error` value.  The six sentinels of package `jwt` are compared by
identity in the source, so each is a constructor of its own; `foreign` is any
other error made outside `Validate` (by the store or the token layer);
`errorf` is a fresh error made by `fmt.Errorf` with the given text; `wrapf`
is a fresh error made by `fmt.Errorf` with a trailing `%w`, whose text is
`text` followed by the text of `cause` and which unwraps to `cause`. -/
inductive GoError where
  | ErrExpired
  | ErrNotValidYet
  | ErrInvalidAudience
  | ErrInvalidID
  | ErrInvalidIssuer
  | ErrInvalidSubject
  | foreign (text : String)
  | errorf (text : String)
  | wrapf (text : String) (cause : GoError)
  deriving DecidableEq, Repr

/-! ## Claims model (claims.go:19-34) -/

/-- The struct `ref`: a referenced object by name and unique identifier. -/
structure ref where
  Name : String
  UID : String
  deriving DecidableEq, Repr

/-- The struct `kubernetes`.  `Pod` and `Secret` are pointers in the source:
`none` is `nil`.  `WarnAfter` is a `jwt.NumericDate` (an `int64` of
seconds). -/
structure kubernetes where
  Namespace : String
  Svcacct : ref
  Pod : Option ref
  Secret : Option ref
  WarnAfter : Int
  deriving DecidableEq, Repr

/-- The struct `privateClaims`. -/
structure privateClaims where
  Kubernetes : kubernetes
  deriving DecidableEq, Repr

/-- The dynamic value behind the parameter `privateObj interface{}`: either a
`*privateClaims`, or a value of another dynamic type (a `nil` interface
included), of which only the type's name is kept. -/
inductive PrivateObj where
  | claims (p : privateClaims)
  | other (dynType : String)
  deriving DecidableEq, Repr

/-! ## Collaborators -/

/-- The fields of a stored service account that `Validate` reads. -/
structure ServiceAccount where
  UID : String
  DeletionTimestamp : Option Time
  deriving DecidableEq, Repr

/-- The fields of a stored secret that `Validate` reads. -/
structure Secret where
  UID : String
  DeletionTimestamp : Option Time
  deriving DecidableEq, Repr

/-- The fields of a stored pod that `Validate` reads. -/
structure Pod where
  UID : String
  DeletionTimestamp : Option Time
  deriving DecidableEq, Repr

/-- The interface `serviceaccount.ServiceAccountTokenGetter`, as far as
`Validate` uses it: three lookups by namespace and name. -/
structure ServiceAccountTokenGetter where
  GetServiceAccount : String → String → Except GoError ServiceAccount
  GetPod : String → String → Except GoError Pod
  GetSecret : String → String → Except GoError Secret

/-- The struct `validator`. -/
structure validator where
  getter : ServiceAccountTokenGetter

/-- The function `NewValidator`. -/
def NewValidator (getter : ServiceAccountTokenGetter) : validator :=
  { getter := getter }

/-- The public claims `jwt.Claims`: the temporal claims of a token. -/
structure Claims where
  Expiry : Option Time
  NotBefore : Option Time
  IssuedAt : Option Time
  deriving DecidableEq, Repr

/-- The struct `jwt.Expected`; `Validate` sets its field `Time` only. -/
structure Expected where
  Time : Time
  deriving DecidableEq, Repr

/-- What `Validate` uses of package `jwt`: the constant `jwt.DefaultLeeway`
and the method `(jwt.Claims).Validate`, which returns `nil` (`none`) or an
error. -/
structure JwtPackage where
  DefaultLeeway : Duration
  Validate : Claims → Expected → Option GoError

/-- The result type `apiserverserviceaccount.ServiceAccountInfo`, with the
fields `Validate` sets. -/
structure ServiceAccountInfo where
  Namespace : String
  Name : String
  UID : String
  PodName : String
  PodUID : String
  deriving DecidableEq, Repr

/-! ## Calls and outcomes -/

/-- A call `Validate` makes to a collaborator: reading the clock, the
token layer's time-window check, or one of the three store lookups with its
arguments. -/
inductive Call where
  | now
  | publicValidate
  | GetServiceAccount (ns name : String)
  | GetSecret (ns name : String)
  | GetPod (ns name : String)
  deriving DecidableEq, Repr

/-- Whether a call is a lookup in the store. -/
def Call.isStore : Call → Bool
  | .GetServiceAccount _ _ => true
  | .GetSecret _ _ => true
  | .GetPod _ _ => true
  | _ => false

/-- Equality of results is decidable when it is on both sides. -/
instance instDecidableEqExcept {ε α : Type} [DecidableEq ε] [DecidableEq α] :
    DecidableEq (Except ε α) := fun a b =>
  match a, b with
  | .ok x, .ok y =>
    if h : x = y then isTrue (by rw [h]) else isFalse (fun c => h (by cases c; rfl))
  | .error x, .error y =>
    if h : x = y then isTrue (by rw [h]) else isFalse (fun c => h (by cases c; rfl))
  | .ok _, .error _ => isFalse (fun c => by cases c)
  | .error _, .ok _ => isFalse (fun c => by cases c)

/-- What a run of `Validate` yields: the calls made, in order, and the pair
`(*ServiceAccountInfo, error)` as an `Except`. -/
structure Outcome where
  calls : List Call
  result : Except GoError ServiceAccountInfo
  deriving DecidableEq

/-- The store lookups among the calls of an outcome, in order. -/
def Outcome.storeCalls (o : Outcome) : List Call :=
  o.calls.filter Call.isStore

/-! ## Validate (claims.go:48-143) -/

/-- The condition
`x.DeletionTimestamp != nil && x.DeletionTimestamp.Time.Before(t)`
of claims.go:90, 106 and 124. -/
def deletedBefore (ts : Option Time) (t : Time) : Bool :=
  match ts with
  | none => false
  | some d => Time.Before d t

/-- The text "service account token has been invalidated" of claims.go:104,
108, 122 and 126. -/
def tokenInvalidated : GoError :=
  .errorf "service account token has been invalidated"

/-- Lines 116-142 of `Validate`: the pod binding and the result.  `tr` holds
the calls made so far. -/
def Validate.pod (v : validator) (priv : privateClaims)
    (invalidIfDeletedBefore : Time) (tr : List Call) : Outcome :=
  let ns := priv.Kubernetes.Namespace
  match priv.Kubernetes.Pod with
  | none =>
    ⟨tr, .ok
      { Namespace := priv.Kubernetes.Namespace
        Name := priv.Kubernetes.Svcacct.Name
        UID := priv.Kubernetes.Svcacct.UID
        PodName := ""
        PodUID := "" }⟩
  | some podref =>
    let tr := tr ++ [Call.GetPod ns podref.Name]
    match v.getter.GetPod ns podref.Name with
    | .error _ => ⟨tr, .error tokenInvalidated⟩
    | .ok pod =>
      if deletedBefore pod.DeletionTimestamp invalidIfDeletedBefore then
        ⟨tr, .error tokenInvalidated⟩
      else if podref.UID ≠ pod.UID then
        ⟨tr, .error (.errorf ("pod UID (" ++ pod.UID
          ++ ") does not match service account pod ref claim ("
          ++ podref.UID ++ ")"))⟩
      else
        ⟨tr, .ok
          { Namespace := priv.Kubernetes.Namespace
            Name := priv.Kubernetes.Svcacct.Name
            UID := priv.Kubernetes.Svcacct.UID
            PodName := podref.Name
            PodUID := podref.UID }⟩

/-- Lines 99-114 of `Validate`: the secret binding, followed by the rest of
the function.  `tr` holds the calls made so far. -/
def Validate.secret (v : validator) (priv : privateClaims)
    (invalidIfDeletedBefore : Time) (tr : List Call) : Outcome :=
  let ns := priv.Kubernetes.Namespace
  match priv.Kubernetes.Secret with
  | none => Validate.pod v priv invalidIfDeletedBefore tr
  | some secref =>
    let tr := tr ++ [Call.GetSecret ns secref.Name]
    match v.getter.GetSecret ns secref.Name with
    | .error _ => ⟨tr, .error tokenInvalidated⟩
    | .ok secret =>
      if deletedBefore secret.DeletionTimestamp invalidIfDeletedBefore then
        ⟨tr, .error tokenInvalidated⟩
      else if secref.UID ≠ secret.UID then
        ⟨tr, .error (.errorf ("secret UID (" ++ secret.UID
          ++ ") does not match service account secret ref claim ("
          ++ secref.UID ++ ")"))⟩
      else
        Validate.pod v priv invalidIfDeletedBefore tr

/-- The method `(*validator).Validate`, lines 48-97, continued by
`Validate.secret` and `Validate.pod`.  The context and the string parameter
are unused in the source and dropped. -/
def Validate (jwt : JwtPackage) (v : validator) (now : Time) (pub : Claims)
    (privateObj : PrivateObj) : Outcome :=
  match privateObj with
  | .other _ =>
    ⟨[], .error (.errorf
      "service account token claims could not be validated due to unexpected private claim")⟩
  | .claims priv =>
    let nowTime := now
    let tr := [Call.now, Call.publicValidate]
    match jwt.Validate pub { Time := nowTime } with
    | some err =>
      if err = .ErrExpired then
        ⟨tr, .error (.errorf "service account token has expired")⟩
      else if err = .ErrNotValidYet then
        ⟨tr, .error (.errorf "service account token is not valid yet")⟩
      else if err = .ErrInvalidAudience ∨ err = .ErrInvalidID
          ∨ err = .ErrInvalidIssuer ∨ err = .ErrInvalidSubject then
        ⟨tr, .error (.wrapf
          "service account token claims could not be validated: " err)⟩
      else
        ⟨tr, .error (.errorf
          "service account token claims could not be validated due to unexpected validation error")⟩
    | none =>
      let invalidIfDeletedBefore := Time.Add nowTime (-jwt.DefaultLeeway)
      let ns := priv.Kubernetes.Namespace
      let saref := priv.Kubernetes.Svcacct
      let tr := tr ++ [Call.GetServiceAccount ns saref.Name]
      match v.getter.GetServiceAccount ns saref.Name with
      | .error err => ⟨tr, .error err⟩
      | .ok serviceAccount =>
        if deletedBefore serviceAccount.DeletionTimestamp invalidIfDeletedBefore then
          ⟨tr, .error (.errorf ("service account " ++ ns ++ "/" ++ saref.Name
            ++ " has been deleted"))⟩
        else if serviceAccount.UID ≠ saref.UID then
          ⟨tr, .error (.errorf ("service account UID (" ++ serviceAccount.UID
            ++ ") does not match claim (" ++ saref.UID ++ ")"))⟩
        else
          Validate.secret v priv invalidIfDeletedBefore tr

/-- The method `(*validator).NewPrivateClaims`: `&privateClaims{}`, every
field at its zero value. -/
def NewPrivateClaims : PrivateObj :=
  .claims
    { Kubernetes :=
        { Namespace := ""
          Svcacct := { Name := "", UID := "" }
          Pod := none
          Secret := none
          WarnAfter := 0 } }

/-! ## The token layer, as the specification describes it -/

/-- Modelled from the spec: the token layer's expected-time validation, the
method `(jwt.Claims).Validate` of go-jose that claims.go:55 calls and whose
source is not part of the modelled file.  The specification describes it as
the standard expected-time validation of the temporal claims at the current
instant, with outcomes success, "expired" and "not yet valid", and with a
time-window slack of its own that is the validator's `leeway`: a token is not
yet valid when its not-before lies after `e.Time + leeway` and expired when
its expiry lies before `e.Time - leeway`; an absent claim constrains
nothing.  The specification fixes no order between the two bounds; the
not-before bound is examined first here, as go-jose does. -/
def Claims.Validate (leeway : Duration) (c : Claims) (e : Expected) :
    Option GoError :=
  if (match c.NotBefore with
      | some nbf => Time.Before (Time.Add e.Time leeway) nbf
      | none => false) then
    some .ErrNotValidYet
  else if (match c.Expiry with
      | some exp => Time.Before exp (Time.Add e.Time (-leeway))
      | none => false) then
    some .ErrExpired
  else
    none

/-- Modelled from the spec: package `jwt` with a grace duration `leeway`
shared between the constant `DefaultLeeway` and the slack of the
time-window check `Claims.Validate`. -/
def specJwt (leeway : Duration) : JwtPackage :=
  { DefaultLeeway := leeway, Validate := Claims.Validate leeway }

/-! ## Gates and planned lookups, as the specification words them -/

/-- The account gate of the specification: the account is found, not deleted
before `t`, and its UID is the claimed one. -/
def accountGate (v : validator) (priv : privateClaims) (t : Time) : Bool :=
  match v.getter.GetServiceAccount priv.Kubernetes.Namespace
      priv.Kubernetes.Svcacct.Name with
  | .error _ => false
  | .ok sa =>
    !deletedBefore sa.DeletionTimestamp t
      && decide (sa.UID = priv.Kubernetes.Svcacct.UID)

/-- The secret gate of the specification: no secret is claimed, or the
claimed secret is found, not deleted before `t`, and has the claimed UID. -/
def secretGate (v : validator) (priv : privateClaims) (t : Time) : Bool :=
  match priv.Kubernetes.Secret with
  | none => true
  | some secref =>
    match v.getter.GetSecret priv.Kubernetes.Namespace secref.Name with
    | .error _ => false
    | .ok secret =>
      !deletedBefore secret.DeletionTimestamp t
        && decide (secret.UID = secref.UID)

/-- The pod gate of the specification: no pod is claimed, or the claimed pod
is found, not deleted before `t`, and has the claimed UID. -/
def podGate (v : validator) (priv : privateClaims) (t : Time) : Bool :=
  match priv.Kubernetes.Pod with
  | none => true
  | some podref =>
    match v.getter.GetPod priv.Kubernetes.Namespace podref.Name with
    | .error _ => false
    | .ok pod =>
      !deletedBefore pod.DeletionTimestamp t
        && decide (pod.UID = podref.UID)

/-- The lookup of the claimed secret, when one is claimed. -/
def secretLookup (priv : privateClaims) : List Call :=
  match priv.Kubernetes.Secret with
  | none => []
  | some secref => [Call.GetSecret priv.Kubernetes.Namespace secref.Name]

/-- The lookup of the claimed pod, when one is claimed. -/
def podLookup (priv : privateClaims) : List Call :=
  match priv.Kubernetes.Pod with
  | none => []
  | some podref => [Call.GetPod priv.Kubernetes.Namespace podref.Name]

/-- The store lookups a full run makes, in the order the specification
fixes: the account, then the secret if claimed, then the pod if claimed. -/
def plannedLookups (priv : privateClaims) : List Call :=
  [Call.GetServiceAccount priv.Kubernetes.Namespace
      priv.Kubernetes.Svcacct.Name]
    ++ secretLookup priv ++ podLookup priv

/-- The calls made up to and including the account lookup. -/
def accountCalls (priv : privateClaims) : List Call :=
  [Call.now, Call.publicValidate,
    Call.GetServiceAccount priv.Kubernetes.Namespace
      priv.Kubernetes.Svcacct.Name]

/-! ## The rejection kinds of the specification -/

/-- The closed set of rejection kinds the specification lists, as a
predicate on the error `Validate` returns for the private object
`privateObj` on the store of `v`: `Expired`, `NotYetValid`,
`ClaimValidationFailed` with any detail, `UnexpectedValidationError`, the
error the store returned for the lookup of the claimed account,
`AccountDeleted` for any namespace and name, `AccountUIDMismatch` for any two
UIDs, and `TokenInvalidated`. -/
def listedRejection (v : validator) (privateObj : PrivateObj) (e : GoError) :
    Prop :=
  e = .errorf "service account token has expired"
  ∨ e = .errorf "service account token is not valid yet"
  ∨ (∃ detail, e = .wrapf
      "service account token claims could not be validated: " detail)
  ∨ e = .errorf
      "service account token claims could not be validated due to unexpected validation error"
  ∨ (∃ priv, privateObj = .claims priv
      ∧ v.getter.GetServiceAccount priv.Kubernetes.Namespace
          priv.Kubernetes.Svcacct.Name = .error e)
  ∨ (∃ ns name, e = .errorf ("service account " ++ ns ++ "/" ++ name
      ++ " has been deleted"))
  ∨ (∃ storeUID claimedUID, e = .errorf ("service account UID (" ++ storeUID
      ++ ") does not match claim (" ++ claimedUID ++ ")"))
  ∨ e = .errorf "service account token has been invalidated"

/-! ## Sample collaborators and claims -/

/-- One second, in nanoseconds. -/
def second : Duration := 1000000000

/-- One minute. -/
def minute : Duration := 60 * second

/-- A token layer that answers every time-window check with `outcome`. -/
def stubJwt (leeway : Duration) (outcome : Option GoError) : JwtPackage :=
  { DefaultLeeway := leeway, Validate := fun _ _ => outcome }

/-- The error of a store that does not hold the object asked for. -/
def notFound : GoError := .foreign "not found"

/-- A store holding, in namespace `ns1`, the account `sa1`, the secret
`sec1` and the pod `pod1` when given, and nothing else. -/
def sampleGetter (sa : Option ServiceAccount) (secret : Option Secret)
    (pod : Option Pod) : ServiceAccountTokenGetter :=
  { GetServiceAccount := fun ns name =>
      match sa with
      | some x => if ns = "ns1" ∧ name = "sa1" then .ok x else .error notFound
      | none => .error notFound
    GetSecret := fun ns name =>
      match secret with
      | some x => if ns = "ns1" ∧ name = "sec1" then .ok x else .error notFound
      | none => .error notFound
    GetPod := fun ns name =>
      match pod with
      | some x => if ns = "ns1" ∧ name = "pod1" then .ok x else .error notFound
      | none => .error notFound }

/-- Private claims for account `sa1` with UID `u1` in namespace `ns1`, with
the given secret and pod references. -/
def sampleClaims (secret pod : Option ref) : privateClaims :=
  { Kubernetes :=
      { Namespace := "ns1"
        Svcacct := { Name := "sa1", UID := "u1" }
        Pod := pod
        Secret := secret
        WarnAfter := 0 } }

/-- Public claims with the given not-before and expiry. -/
def sampleToken (notBefore expiry : Option Time) : Claims :=
  { Expiry := expiry, NotBefore := notBefore, IssuedAt := none }

/-- The instant used as "now" in the samples: 1000 seconds. -/
def sampleNow : Time := 1000 * second

/-! ## Auxiliary facts -/

theorem deletedBefore_eq_true_iff (ts : Option Time) (t : Time) :
    deletedBefore ts t = true ↔ ∃ d, ts = some d ∧ d < t := by
  cases ts <;> simp [deletedBefore, Time.Before]

theorem deletedBefore_eq_false_iff (ts : Option Time) (t : Time) :
    deletedBefore ts t = false ↔ ∀ d, ts = some d → t ≤ d := by
  cases ts <;> simp [deletedBefore, Time.Before]

theorem Time.add_neg (t : Time) (d : Duration) : Time.Add t (-d) = t - d := by
  exact (Int.sub_eq_add_neg).symm

/-- `Validate` after a passed time-window check: the account stage of lines
78-97, with `now - leeway` as the deletion bound. -/
theorem Validate_eq_of_window (jwt : JwtPackage) (v : validator) (now : Time)
    (pub : Claims) (priv : privateClaims)
    (htw : jwt.Validate pub { Time := now } = none) :
    Validate jwt v now pub (.claims priv) =
      match v.getter.GetServiceAccount priv.Kubernetes.Namespace
          priv.Kubernetes.Svcacct.Name with
      | .error err =>
        ⟨[Call.now, Call.publicValidate,
            Call.GetServiceAccount priv.Kubernetes.Namespace
              priv.Kubernetes.Svcacct.Name], .error err⟩
      | .ok sa =>
        if deletedBefore sa.DeletionTimestamp (now - jwt.DefaultLeeway) then
          ⟨[Call.now, Call.publicValidate,
              Call.GetServiceAccount priv.Kubernetes.Namespace
                priv.Kubernetes.Svcacct.Name],
            .error (.errorf ("service account " ++ priv.Kubernetes.Namespace
              ++ "/" ++ priv.Kubernetes.Svcacct.Name ++ " has been deleted"))⟩
        else if sa.UID ≠ priv.Kubernetes.Svcacct.UID then
          ⟨[Call.now, Call.publicValidate,
              Call.GetServiceAccount priv.Kubernetes.Namespace
                priv.Kubernetes.Svcacct.Name],
            .error (.errorf ("service account UID (" ++ sa.UID
              ++ ") does not match claim (" ++ priv.Kubernetes.Svcacct.UID
              ++ ")"))⟩
        else
          Validate.secret v priv (now - jwt.DefaultLeeway)
            [Call.now, Call.publicValidate,
              Call.GetServiceAccount priv.Kubernetes.Namespace
                priv.Kubernetes.Svcacct.Name] := by
  simp only [Validate, htw, Time.add_neg, List.cons_append, List.nil_append]

/-- A successful pod stage found the claimed pod alive and UID-matching. -/
theorem Validate.pod_result_ok (v : validator) (priv : privateClaims)
    (t : Time) (tr : List Call) (info : ServiceAccountInfo)
    (h : (Validate.pod v priv t tr).result = .ok info)
    (podref : ref) (hp : priv.Kubernetes.Pod = some podref) :
    ∃ pod, v.getter.GetPod priv.Kubernetes.Namespace podref.Name = .ok pod ∧
      deletedBefore pod.DeletionTimestamp t = false ∧ pod.UID = podref.UID := by
  cases hg : v.getter.GetPod priv.Kubernetes.Namespace podref.Name with
  | error e => simp [Validate.pod, hp, hg] at h
  | ok pod =>
    cases hd : deletedBefore pod.DeletionTimestamp t with
    | true => simp [Validate.pod, hp, hg, hd] at h
    | false =>
      by_cases hu : podref.UID = pod.UID
      · exact ⟨pod, rfl, hd, hu.symm⟩
      · simp [Validate.pod, hp, hg, hd, hu] at h

/-- A successful secret stage found the claimed secret alive and
UID-matching, and the pod stage that follows it succeeded. -/
theorem Validate.secret_result_ok (v : validator) (priv : privateClaims)
    (t : Time) (tr : List Call) (info : ServiceAccountInfo)
    (h : (Validate.secret v priv t tr).result = .ok info) :
    (∀ secref, priv.Kubernetes.Secret = some secref →
      ∃ secret, v.getter.GetSecret priv.Kubernetes.Namespace secref.Name
            = .ok secret ∧
        deletedBefore secret.DeletionTimestamp t = false ∧
        secret.UID = secref.UID) ∧
    ∃ tr2, (Validate.pod v priv t tr2).result = .ok info := by
  cases hs : priv.Kubernetes.Secret with
  | none =>
    refine ⟨fun _ hc => by simp at hc, tr, ?_⟩
    simpa [Validate.secret, hs] using h
  | some secref =>
    cases hg : v.getter.GetSecret priv.Kubernetes.Namespace secref.Name with
    | error e => simp [Validate.secret, hs, hg] at h
    | ok secret =>
      cases hd : deletedBefore secret.DeletionTimestamp t with
      | true => simp [Validate.secret, hs, hg, hd] at h
      | false =>
        by_cases hu : secref.UID = secret.UID
        · refine ⟨fun r hr => ?_,
            tr ++ [Call.GetSecret priv.Kubernetes.Namespace secref.Name], ?_⟩
          · obtain rfl : secref = r := by simpa using hr
            exact ⟨secret, hg, hd, hu.symm⟩
          · simpa [Validate.secret, hs, hg, hd, hu] using h
        · simp [Validate.secret, hs, hg, hd, hu] at h

theorem accountGate_eq_true_iff (v : validator) (priv : privateClaims)
    (t : Time) :
    accountGate v priv t = true ↔
      ∃ sa, v.getter.GetServiceAccount priv.Kubernetes.Namespace
            priv.Kubernetes.Svcacct.Name = .ok sa ∧
        (∀ d, sa.DeletionTimestamp = some d → t ≤ d) ∧
        sa.UID = priv.Kubernetes.Svcacct.UID := by
  unfold accountGate
  cases h : v.getter.GetServiceAccount priv.Kubernetes.Namespace
      priv.Kubernetes.Svcacct.Name with
  | error e => simp
  | ok sa => simp [deletedBefore_eq_false_iff]

theorem secretGate_eq_true_iff (v : validator) (priv : privateClaims)
    (t : Time) :
    secretGate v priv t = true ↔
      ∀ secref, priv.Kubernetes.Secret = some secref →
        ∃ secret, v.getter.GetSecret priv.Kubernetes.Namespace secref.Name
              = .ok secret ∧
          (∀ d, secret.DeletionTimestamp = some d → t ≤ d) ∧
          secret.UID = secref.UID := by
  unfold secretGate
  cases hs : priv.Kubernetes.Secret with
  | none => simp
  | some secref =>
    cases h : v.getter.GetSecret priv.Kubernetes.Namespace secref.Name with
    | error e => simp [h]
    | ok secret => simp [h, deletedBefore_eq_false_iff]

theorem podGate_eq_true_iff (v : validator) (priv : privateClaims)
    (t : Time) :
    podGate v priv t = true ↔
      ∀ podref, priv.Kubernetes.Pod = some podref →
        ∃ pod, v.getter.GetPod priv.Kubernetes.Namespace podref.Name
              = .ok pod ∧
          (∀ d, pod.DeletionTimestamp = some d → t ≤ d) ∧
          pod.UID = podref.UID := by
  unfold podGate
  cases hs : priv.Kubernetes.Pod with
  | none => simp
  | some podref =>
    cases h : v.getter.GetPod priv.Kubernetes.Namespace podref.Name with
    | error e => simp [h]
    | ok pod => simp [h, deletedBefore_eq_false_iff]

/-- The pod stage when its gate passes: the lookup, if any, is appended and
the result carries the claimed identifiers. -/
theorem Validate.pod_of_gate (v : validator) (priv : privateClaims)
    (t : Time) (tr : List Call) (hp : podGate v priv t = true) :
    Validate.pod v priv t tr =
      ⟨tr ++ podLookup priv, .ok
        { Namespace := priv.Kubernetes.Namespace
          Name := priv.Kubernetes.Svcacct.Name
          UID := priv.Kubernetes.Svcacct.UID
          PodName := (match priv.Kubernetes.Pod with
            | some r => r.Name
            | none => "")
          PodUID := (match priv.Kubernetes.Pod with
            | some r => r.UID
            | none => "") }⟩ := by
  unfold podGate at hp
  unfold Validate.pod podLookup
  cases hs : priv.Kubernetes.Pod with
  | none => simp
  | some podref =>
    rw [hs] at hp
    cases h : v.getter.GetPod priv.Kubernetes.Namespace podref.Name with
    | error e => simp [h] at hp
    | ok pod =>
      simp only [h, Bool.and_eq_true, Bool.not_eq_true', decide_eq_true_eq] at hp
      simp [h, hp.1, hp.2]

/-- The secret stage when its gate passes: the lookup, if any, is appended
and the pod stage follows. -/
theorem Validate.secret_of_gate (v : validator) (priv : privateClaims)
    (t : Time) (tr : List Call) (hg : secretGate v priv t = true) :
    Validate.secret v priv t tr =
      Validate.pod v priv t (tr ++ secretLookup priv) := by
  unfold secretGate at hg
  unfold Validate.secret secretLookup
  cases hs : priv.Kubernetes.Secret with
  | none => simp
  | some secref =>
    rw [hs] at hg
    cases h : v.getter.GetSecret priv.Kubernetes.Namespace secref.Name with
    | error e => simp [h] at hg
    | ok secret =>
      simp only [h, Bool.and_eq_true, Bool.not_eq_true', decide_eq_true_eq] at hg
      simp [h, hg.1, hg.2]

/-- The whole of `Validate` when the time-window check and the three gates
pass. -/
theorem Validate_of_gates (jwt : JwtPackage) (v : validator) (now : Time)
    (pub : Claims) (priv : privateClaims)
    (htw : jwt.Validate pub { Time := now } = none)
    (ha : accountGate v priv (now - jwt.DefaultLeeway) = true)
    (hs : secretGate v priv (now - jwt.DefaultLeeway) = true)
    (hp : podGate v priv (now - jwt.DefaultLeeway) = true) :
    Validate jwt v now pub (.claims priv) =
      ⟨[Call.now, Call.publicValidate] ++ plannedLookups priv, .ok
        { Namespace := priv.Kubernetes.Namespace
          Name := priv.Kubernetes.Svcacct.Name
          UID := priv.Kubernetes.Svcacct.UID
          PodName := (match priv.Kubernetes.Pod with
            | some r => r.Name
            | none => "")
          PodUID := (match priv.Kubernetes.Pod with
            | some r => r.UID
            | none => "") }⟩ := by
  rw [Validate_eq_of_window jwt v now pub priv htw]
  unfold accountGate at ha
  cases h : v.getter.GetServiceAccount priv.Kubernetes.Namespace
      priv.Kubernetes.Svcacct.Name with
  | error e => simp [h] at ha
  | ok sa =>
    simp only [h, Bool.and_eq_true, Bool.not_eq_true', decide_eq_true_eq] at ha
    simp [ha.1, ha.2, Validate.secret_of_gate v priv _ _ hs,
      Validate.pod_of_gate v priv _ _ hp, plannedLookups]

theorem Validate_of_account_error (jwt : JwtPackage) (v : validator)
    (now : Time) (pub : Claims) (priv : privateClaims) (e : GoError)
    (htw : jwt.Validate pub { Time := now } = none)
    (hsa : v.getter.GetServiceAccount priv.Kubernetes.Namespace
        priv.Kubernetes.Svcacct.Name = .error e) :
    Validate jwt v now pub (.claims priv) = ⟨accountCalls priv, .error e⟩ := by
  rw [Validate_eq_of_window jwt v now pub priv htw, hsa, accountCalls]

theorem Validate_of_account_deleted (jwt : JwtPackage) (v : validator)
    (now : Time) (pub : Claims) (priv : privateClaims) (sa : ServiceAccount)
    (htw : jwt.Validate pub { Time := now } = none)
    (hsa : v.getter.GetServiceAccount priv.Kubernetes.Namespace
        priv.Kubernetes.Svcacct.Name = .ok sa)
    (hd : deletedBefore sa.DeletionTimestamp (now - jwt.DefaultLeeway) = true) :
    Validate jwt v now pub (.claims priv) =
      ⟨accountCalls priv,
        .error (.errorf ("service account " ++ priv.Kubernetes.Namespace
          ++ "/" ++ priv.Kubernetes.Svcacct.Name ++ " has been deleted"))⟩ := by
  rw [Validate_eq_of_window jwt v now pub priv htw, hsa, accountCalls]
  simp only [hd, if_true]

theorem Validate_of_account_uid (jwt : JwtPackage) (v : validator)
    (now : Time) (pub : Claims) (priv : privateClaims) (sa : ServiceAccount)
    (htw : jwt.Validate pub { Time := now } = none)
    (hsa : v.getter.GetServiceAccount priv.Kubernetes.Namespace
        priv.Kubernetes.Svcacct.Name = .ok sa)
    (hd : deletedBefore sa.DeletionTimestamp (now - jwt.DefaultLeeway) = false)
    (hne : sa.UID ≠ priv.Kubernetes.Svcacct.UID) :
    Validate jwt v now pub (.claims priv) =
      ⟨accountCalls priv,
        .error (.errorf ("service account UID (" ++ sa.UID
          ++ ") does not match claim (" ++ priv.Kubernetes.Svcacct.UID
          ++ ")"))⟩ := by
  rw [Validate_eq_of_window jwt v now pub priv htw, hsa, accountCalls]
  simp only [hd, Bool.false_eq_true, if_false, hne, ne_eq, not_false_eq_true,
    if_true]

theorem Validate_of_account_ok (jwt : JwtPackage) (v : validator)
    (now : Time) (pub : Claims) (priv : privateClaims)
    (htw : jwt.Validate pub { Time := now } = none)
    (ha : accountGate v priv (now - jwt.DefaultLeeway) = true) :
    Validate jwt v now pub (.claims priv) =
      Validate.secret v priv (now - jwt.DefaultLeeway) (accountCalls priv) := by
  rw [Validate_eq_of_window jwt v now pub priv htw, accountCalls]
  unfold accountGate at ha
  cases h : v.getter.GetServiceAccount priv.Kubernetes.Namespace
      priv.Kubernetes.Svcacct.Name with
  | error e => simp [h] at ha
  | ok sa =>
    simp only [h, Bool.and_eq_true, Bool.not_eq_true', decide_eq_true_eq] at ha
    simp [ha.1, ha.2]

theorem Validate.secret_of_lookup_error (v : validator) (priv : privateClaims)
    (t : Time) (tr : List Call) (secref : ref) (e : GoError)
    (hs : priv.Kubernetes.Secret = some secref)
    (hg : v.getter.GetSecret priv.Kubernetes.Namespace secref.Name = .error e) :
    Validate.secret v priv t tr =
      ⟨tr ++ secretLookup priv, .error tokenInvalidated⟩ := by
  simp [Validate.secret, secretLookup, hs, hg]

theorem Validate.secret_of_deleted (v : validator) (priv : privateClaims)
    (t : Time) (tr : List Call) (secref : ref) (secret : Secret)
    (hs : priv.Kubernetes.Secret = some secref)
    (hg : v.getter.GetSecret priv.Kubernetes.Namespace secref.Name = .ok secret)
    (hd : deletedBefore secret.DeletionTimestamp t = true) :
    Validate.secret v priv t tr =
      ⟨tr ++ secretLookup priv, .error tokenInvalidated⟩ := by
  simp [Validate.secret, secretLookup, hs, hg, hd]

theorem Validate.secret_of_uid (v : validator) (priv : privateClaims)
    (t : Time) (tr : List Call) (secref : ref) (secret : Secret)
    (hs : priv.Kubernetes.Secret = some secref)
    (hg : v.getter.GetSecret priv.Kubernetes.Namespace secref.Name = .ok secret)
    (hd : deletedBefore secret.DeletionTimestamp t = false)
    (hne : secret.UID ≠ secref.UID) :
    Validate.secret v priv t tr =
      ⟨tr ++ secretLookup priv,
        .error (.errorf ("secret UID (" ++ secret.UID
          ++ ") does not match service account secret ref claim ("
          ++ secref.UID ++ ")"))⟩ := by
  simp [Validate.secret, secretLookup, hs, hg, hd, Ne.symm hne]

theorem Validate.pod_of_lookup_error (v : validator) (priv : privateClaims)
    (t : Time) (tr : List Call) (podref : ref) (e : GoError)
    (hs : priv.Kubernetes.Pod = some podref)
    (hg : v.getter.GetPod priv.Kubernetes.Namespace podref.Name = .error e) :
    Validate.pod v priv t tr =
      ⟨tr ++ podLookup priv, .error tokenInvalidated⟩ := by
  simp [Validate.pod, podLookup, hs, hg]

theorem Validate.pod_of_deleted (v : validator) (priv : privateClaims)
    (t : Time) (tr : List Call) (podref : ref) (pod : Pod)
    (hs : priv.Kubernetes.Pod = some podref)
    (hg : v.getter.GetPod priv.Kubernetes.Namespace podref.Name = .ok pod)
    (hd : deletedBefore pod.DeletionTimestamp t = true) :
    Validate.pod v priv t tr =
      ⟨tr ++ podLookup priv, .error tokenInvalidated⟩ := by
  simp [Validate.pod, podLookup, hs, hg, hd]

theorem Validate.pod_of_uid (v : validator) (priv : privateClaims)
    (t : Time) (tr : List Call) (podref : ref) (pod : Pod)
    (hs : priv.Kubernetes.Pod = some podref)
    (hg : v.getter.GetPod priv.Kubernetes.Namespace podref.Name = .ok pod)
    (hd : deletedBefore pod.DeletionTimestamp t = false)
    (hne : pod.UID ≠ podref.UID) :
    Validate.pod v priv t tr =
      ⟨tr ++ podLookup priv,
        .error (.errorf ("pod UID (" ++ pod.UID
          ++ ") does not match service account pod ref claim ("
          ++ podref.UID ++ ")"))⟩ := by
  simp [Validate.pod, podLookup, hs, hg, hd, Ne.symm hne]

/-- Whatever the token layer, an `ErrExpired` from the time-window check
ends `Validate` before any lookup. -/
theorem Validate_of_ErrExpired (jwt : JwtPackage) (v : validator) (now : Time)
    (pub : Claims) (priv : privateClaims)
    (htw : jwt.Validate pub { Time := now } = some .ErrExpired) :
    Validate jwt v now pub (.claims priv) =
      ⟨[Call.now, Call.publicValidate],
        .error (.errorf "service account token has expired")⟩ := by
  simp [Validate, htw]

/-- Whatever the token layer, an `ErrNotValidYet` from the time-window check
ends `Validate` before any lookup. -/
theorem Validate_of_ErrNotValidYet (jwt : JwtPackage) (v : validator)
    (now : Time) (pub : Claims) (priv : privateClaims)
    (htw : jwt.Validate pub { Time := now } = some .ErrNotValidYet) :
    Validate jwt v now pub (.claims priv) =
      ⟨[Call.now, Call.publicValidate],
        .error (.errorf "service account token is not valid yet")⟩ := by
  simp [Validate, htw]

/-- The pod stage appends exactly the lookup of the claimed pod. -/
theorem Validate.pod_calls (v : validator) (priv : privateClaims) (t : Time)
    (tr : List Call) :
    (Validate.pod v priv t tr).calls = tr ++ podLookup priv := by
  unfold Validate.pod podLookup
  cases hs : priv.Kubernetes.Pod with
  | none => simp
  | some podref =>
    cases h : v.getter.GetPod priv.Kubernetes.Namespace podref.Name with
    | error e => simp [h]
    | ok pod =>
      simp only [h]
      split_ifs <;> rfl

/-- The secret stage appends the lookup of the claimed secret and, when its
gate passes, the lookup of the claimed pod. -/
theorem Validate.secret_calls (v : validator) (priv : privateClaims)
    (t : Time) (tr : List Call) :
    (Validate.secret v priv t tr).calls =
      tr ++ secretLookup priv
        ++ (if secretGate v priv t = true then podLookup priv else []) := by
  cases hg : secretGate v priv t with
  | true =>
    rw [Validate.secret_of_gate v priv t tr hg, Validate.pod_calls]
    simp
  | false =>
    unfold secretGate at hg
    unfold Validate.secret secretLookup
    cases hs : priv.Kubernetes.Secret with
    | none => simp [hs] at hg
    | some secref =>
      rw [hs] at hg
      cases h : v.getter.GetSecret priv.Kubernetes.Namespace secref.Name with
      | error e => simp [h]
      | ok secret =>
        simp only [h, Bool.and_eq_false_imp, Bool.not_eq_true',
          decide_eq_false_iff_not] at hg
        cases hd : deletedBefore secret.DeletionTimestamp t with
        | true => simp [h, hd]
        | false =>
          have hne : ¬ secref.UID = secret.UID := fun c => hg hd c.symm
          simp [h, hd, hne]

/-- A failed time-window check ends `Validate` after the clock and the
check. -/
theorem Validate_calls_of_window_error (jwt : JwtPackage) (v : validator)
    (now : Time) (pub : Claims) (priv : privateClaims)
    (htw : jwt.Validate pub { Time := now } ≠ none) :
    (Validate jwt v now pub (.claims priv)).calls
      = [Call.now, Call.publicValidate] := by
  cases h : jwt.Validate pub { Time := now } with
  | none => exact absurd h htw
  | some err =>
    simp only [Validate, h]
    split_ifs <;> rfl

/-- The calls of `Validate` once the time-window check has passed. -/
theorem Validate_calls_of_window (jwt : JwtPackage) (v : validator)
    (now : Time) (pub : Claims) (priv : privateClaims)
    (htw : jwt.Validate pub { Time := now } = none) :
    (Validate jwt v now pub (.claims priv)).calls =
      accountCalls priv
        ++ (if accountGate v priv (now - jwt.DefaultLeeway) = true then
            secretLookup priv
              ++ (if secretGate v priv (now - jwt.DefaultLeeway) = true then
                  podLookup priv else [])
          else []) := by
  cases ha : accountGate v priv (now - jwt.DefaultLeeway) with
  | true =>
    rw [Validate_of_account_ok jwt v now pub priv htw ha,
      Validate.secret_calls]
    simp
  | false =>
    rw [Validate_eq_of_window jwt v now pub priv htw]
    unfold accountGate at ha
    cases h : v.getter.GetServiceAccount priv.Kubernetes.Namespace
        priv.Kubernetes.Svcacct.Name with
    | error e => simp [accountCalls]
    | ok sa =>
      simp only [h, Bool.and_eq_false_imp, Bool.not_eq_true',
        decide_eq_false_iff_not] at ha
      cases hd : deletedBefore sa.DeletionTimestamp
          (now - jwt.DefaultLeeway) with
      | true => simp [hd, accountCalls]
      | false => simp [hd, ha hd, accountCalls]

theorem secretLookup_filter (priv : privateClaims) :
    (secretLookup priv).filter Call.isStore = secretLookup priv := by
  unfold secretLookup
  cases priv.Kubernetes.Secret <;> simp [Call.isStore]

theorem podLookup_filter (priv : privateClaims) :
    (podLookup priv).filter Call.isStore = podLookup priv := by
  unfold podLookup
  cases priv.Kubernetes.Pod <;> simp [Call.isStore]

/-- The store lookups of `Validate` once the time-window check has passed. -/
theorem Validate_storeCalls_of_window (jwt : JwtPackage) (v : validator)
    (now : Time) (pub : Claims) (priv : privateClaims)
    (htw : jwt.Validate pub { Time := now } = none) :
    (Validate jwt v now pub (.claims priv)).storeCalls =
      [Call.GetServiceAccount priv.Kubernetes.Namespace
          priv.Kubernetes.Svcacct.Name]
        ++ (if accountGate v priv (now - jwt.DefaultLeeway) = true then
            secretLookup priv
              ++ (if secretGate v priv (now - jwt.DefaultLeeway) = true then
                  podLookup priv else [])
          else []) := by
  unfold Outcome.storeCalls
  rw [Validate_calls_of_window jwt v now pub priv htw]
  split_ifs <;>
    simp [accountCalls, Call.isStore, List.filter_append, secretLookup_filter,
      podLookup_filter]

/-- Whatever the token layer, one of the four audience, ID, issuer and
subject sentinels from the time-window check ends `Validate` before any
lookup, with an error that wraps the sentinel. -/
theorem Validate_of_invalid_claim (jwt : JwtPackage) (v : validator)
    (now : Time) (pub : Claims) (priv : privateClaims) (err : GoError)
    (htw : jwt.Validate pub { Time := now } = some err)
    (hin : err = .ErrInvalidAudience ∨ err = .ErrInvalidID
      ∨ err = .ErrInvalidIssuer ∨ err = .ErrInvalidSubject) :
    Validate jwt v now pub (.claims priv) =
      ⟨[Call.now, Call.publicValidate],
        .error (.wrapf
          "service account token claims could not be validated: " err)⟩ := by
  rcases hin with h | h | h | h <;> subst h <;> simp [Validate, htw]

/-- Whatever the token layer, an error from the time-window check that is
none of the six sentinels ends `Validate` before any lookup, with a fixed
error. -/
theorem Validate_of_unexpected (jwt : JwtPackage) (v : validator)
    (now : Time) (pub : Claims) (priv : privateClaims) (err : GoError)
    (htw : jwt.Validate pub { Time := now } = some err)
    (h1 : err ≠ .ErrExpired) (h2 : err ≠ .ErrNotValidYet)
    (h3 : err ≠ .ErrInvalidAudience) (h4 : err ≠ .ErrInvalidID)
    (h5 : err ≠ .ErrInvalidIssuer) (h6 : err ≠ .ErrInvalidSubject) :
    Validate jwt v now pub (.claims priv) =
      ⟨[Call.now, Call.publicValidate],
        .error (.errorf
          "service account token claims could not be validated due to unexpected validation error")⟩ := by
  simp [Validate, htw, h1, h2, h3, h4, h5, h6]

/-- The text of the has-been-deleted error never is the text of the
UID-mismatch error: the one ends in `d`, the other in `)`. -/
theorem deleted_text_ne_mismatch_text (a x y : String) :
    a ++ " has been deleted"
      ≠ "service account UID (" ++ x ++ ") does not match claim (" ++ y
        ++ ")" := by
  intro h
  have h2 := congrArg String.data h
  rw [String.data_append, String.data_append] at h2
  have h3 := congrArg List.getLast? h2
  rw [List.getLast?_append, List.getLast?_append] at h3
  simp at h3

/-- A rejection by the pod stage is the generic error or the pod-UID
error. -/
theorem Validate.pod_result_error (v : validator) (priv : privateClaims)
    (t : Time) (tr : List Call) (e : GoError)
    (h : (Validate.pod v priv t tr).result = .error e) :
    e = tokenInvalidated
    ∨ ∃ storeUID claimedUID, e = .errorf ("pod UID (" ++ storeUID
        ++ ") does not match service account pod ref claim ("
        ++ claimedUID ++ ")") := by
  cases hp : priv.Kubernetes.Pod with
  | none => simp [Validate.pod, hp] at h
  | some podref =>
    cases hg : v.getter.GetPod priv.Kubernetes.Namespace podref.Name with
    | error x =>
      rw [Validate.pod_of_lookup_error v priv t tr podref x hp hg] at h
      exact Or.inl (by simpa using h.symm)
    | ok pod =>
      cases hd : deletedBefore pod.DeletionTimestamp t with
      | true =>
        rw [Validate.pod_of_deleted v priv t tr podref pod hp hg hd] at h
        exact Or.inl (by simpa using h.symm)
      | false =>
        by_cases hu : pod.UID = podref.UID
        · have hgate : podGate v priv t = true := by
            simp [podGate, hp, hg, hd, hu]
          rw [Validate.pod_of_gate v priv t tr hgate] at h
          simp at h
        · rw [Validate.pod_of_uid v priv t tr podref pod hp hg hd hu] at h
          exact Or.inr ⟨pod.UID, podref.UID, by simpa using h.symm⟩

/-- A rejection by the secret stage and what follows it is the generic
error, the secret-UID error or the pod-UID error. -/
theorem Validate.secret_result_error (v : validator) (priv : privateClaims)
    (t : Time) (tr : List Call) (e : GoError)
    (h : (Validate.secret v priv t tr).result = .error e) :
    e = tokenInvalidated
    ∨ (∃ storeUID claimedUID, e = .errorf ("secret UID (" ++ storeUID
        ++ ") does not match service account secret ref claim ("
        ++ claimedUID ++ ")"))
    ∨ ∃ storeUID claimedUID, e = .errorf ("pod UID (" ++ storeUID
        ++ ") does not match service account pod ref claim ("
        ++ claimedUID ++ ")") := by
  cases hgate : secretGate v priv t with
  | true =>
    rw [Validate.secret_of_gate v priv t tr hgate] at h
    rcases Validate.pod_result_error v priv t _ e h with h1 | h1
    · exact Or.inl h1
    · exact Or.inr (Or.inr h1)
  | false =>
    cases hs : priv.Kubernetes.Secret with
    | none => simp [secretGate, hs] at hgate
    | some secref =>
      cases hg : v.getter.GetSecret priv.Kubernetes.Namespace secref.Name with
      | error x =>
        rw [Validate.secret_of_lookup_error v priv t tr secref x hs hg] at h
        exact Or.inl (by simpa using h.symm)
      | ok secret =>
        cases hd : deletedBefore secret.DeletionTimestamp t with
        | true =>
          rw [Validate.secret_of_deleted v priv t tr secref secret hs hg hd] at h
          exact Or.inl (by simpa using h.symm)
        | false =>
          by_cases hu : secret.UID = secref.UID
          · simp [secretGate, hs, hg, hd, hu] at hgate
          · rw [Validate.secret_of_uid v priv t tr secref secret hs hg hd hu] at h
            exact Or.inr (Or.inl ⟨secret.UID, secref.UID, by simpa using h.symm⟩)

/-- A text whose last character is not `d` is not the text of a
has-been-deleted error. -/
theorem ne_deleted_text (T a : String) (h : T.data.getLast? ≠ some 'd') :
    T ≠ a ++ " has been deleted" := by
  intro c
  apply h
  rw [c, String.data_append, List.getLast?_append]
  simp

/-- A fresh error with text `T` is outside the listed rejection kinds as
soon as `T` is none of their texts and the account lookup did not return
it. -/
theorem not_listedRejection_errorf (v : validator) (obj : PrivateObj)
    (T : String)
    (h1 : T ≠ "service account token has expired")
    (h2 : T ≠ "service account token is not valid yet")
    (h3 : T ≠
      "service account token claims could not be validated due to unexpected validation error")
    (h4 : ∀ priv, obj = .claims priv →
      v.getter.GetServiceAccount priv.Kubernetes.Namespace
        priv.Kubernetes.Svcacct.Name ≠ .error (.errorf T))
    (h5 : T.data.getLast? ≠ some 'd')
    (h6 : ∀ x y, T ≠ "service account UID (" ++ x
      ++ ") does not match claim (" ++ y ++ ")")
    (h7 : T ≠ "service account token has been invalidated") :
    ¬ listedRejection v obj (.errorf T) := by
  intro h
  rcases h with h | h | ⟨d, h⟩ | h | ⟨priv, hp, h⟩ | ⟨ns, name, h⟩
    | ⟨x, y, h⟩ | h
  · exact h1 (by simpa using h)
  · exact h2 (by simpa using h)
  · cases h
  · exact h3 (by simpa using h)
  · exact h4 priv hp h
  · exact ne_deleted_text T _ h5 (by simpa using h)
  · exact h6 x y (by simpa using h)
  · exact h7 (by simpa using h)

/-- Not deleted before `t`, or deleted before `t`: the two readings of
`deletedBefore` exclude each other. -/
theorem not_deleted_iff (ts : Option Time) (t : Time) :
    (¬ ∃ d, ts = some d ∧ d < t) ↔ ∀ d, ts = some d → t ≤ d := by
  constructor
  · intro h d hd
    by_contra c
    exact h ⟨d, hd, not_le.1 c⟩
  · rintro h ⟨d, hd, hlt⟩
    exact absurd (h d hd) (not_le.2 hlt)

/-! ## Acceptance -/

/-- C1. Soundness of acceptance: if `Validate` returns a success result, then
the private object is a `*privateClaims`, the time-window check returned no
error, the account lookup succeeded with an account not deleted before
`now - leeway` whose UID equals the claimed one, and each present secret or
pod reference was looked up successfully, is not deleted before
`now - leeway`, and has the claimed UID. -/
theorem Validate_sound (jwt : JwtPackage) (v : validator) (now : Time)
    (pub : Claims) (privateObj : PrivateObj) (info : ServiceAccountInfo)
    (h : (Validate jwt v now pub privateObj).result = .ok info) :
    ∃ priv, privateObj = .claims priv ∧
      jwt.Validate pub { Time := now } = none ∧
      (∃ sa, v.getter.GetServiceAccount priv.Kubernetes.Namespace
              priv.Kubernetes.Svcacct.Name = .ok sa ∧
          (∀ d, sa.DeletionTimestamp = some d → now - jwt.DefaultLeeway ≤ d) ∧
          sa.UID = priv.Kubernetes.Svcacct.UID) ∧
      (∀ secref, priv.Kubernetes.Secret = some secref →
        ∃ secret, v.getter.GetSecret priv.Kubernetes.Namespace secref.Name
              = .ok secret ∧
          (∀ d, secret.DeletionTimestamp = some d →
              now - jwt.DefaultLeeway ≤ d) ∧
          secret.UID = secref.UID) ∧
      (∀ podref, priv.Kubernetes.Pod = some podref →
        ∃ pod, v.getter.GetPod priv.Kubernetes.Namespace podref.Name
              = .ok pod ∧
          (∀ d, pod.DeletionTimestamp = some d →
              now - jwt.DefaultLeeway ≤ d) ∧
          pod.UID = podref.UID) := by
  cases privateObj with
  | other t => simp [Validate] at h
  | claims priv =>
    refine ⟨priv, rfl, ?_⟩
    cases htw : jwt.Validate pub { Time := now } with
    | some err =>
      simp only [Validate, htw] at h
      split_ifs at h
    | none =>
      refine ⟨rfl, ?_⟩
      rw [Validate_eq_of_window jwt v now pub priv htw] at h
      cases hsa : v.getter.GetServiceAccount priv.Kubernetes.Namespace
          priv.Kubernetes.Svcacct.Name with
      | error e => simp [hsa] at h
      | ok sa =>
        cases hd : deletedBefore sa.DeletionTimestamp
            (now - jwt.DefaultLeeway) with
        | true => simp [hsa, hd] at h
        | false =>
          by_cases hu : sa.UID = priv.Kubernetes.Svcacct.UID
          · simp only [hsa, hd, hu, ne_eq, not_true_eq_false, if_false,
              Bool.false_eq_true] at h
            obtain ⟨hsec, tr2, hpod⟩ :=
              Validate.secret_result_ok v priv _ _ info h
            refine ⟨⟨sa, rfl, (deletedBefore_eq_false_iff _ _).1 hd, hu⟩,
              fun secref hs => ?_, fun podref hp => ?_⟩
            · obtain ⟨secret, h1, h2, h3⟩ := hsec secref hs
              exact ⟨secret, h1, (deletedBefore_eq_false_iff _ _).1 h2, h3⟩
            · obtain ⟨pod, h1, h2, h3⟩ :=
                Validate.pod_result_ok v priv _ tr2 info hpod podref hp
              exact ⟨pod, h1, (deletedBefore_eq_false_iff _ _).1 h2, h3⟩
          · simp [hsa, hd, hu] at h

/-- Witness of C1: the account `sa1` with UID `u1`, a matching secret and a
matching pod. -/
theorem Validate_sound_witness :
    (Validate (stubJwt minute none)
        (NewValidator (sampleGetter (some ⟨"u1", none⟩) (some ⟨"s1", none⟩)
          (some ⟨"p1", some sampleNow⟩)))
        sampleNow (sampleToken none none)
        (.claims (sampleClaims (some ⟨"sec1", "s1"⟩)
          (some ⟨"pod1", "p1"⟩)))).result
      = .ok ⟨"ns1", "sa1", "u1", "pod1", "p1"⟩
    ∧ ∃ priv, PrivateObj.claims (sampleClaims (some ⟨"sec1", "s1"⟩)
          (some ⟨"pod1", "p1"⟩)) = .claims priv ∧
      (stubJwt minute none).Validate (sampleToken none none)
        { Time := sampleNow } = none ∧
      (∃ sa, (NewValidator (sampleGetter (some ⟨"u1", none⟩)
            (some ⟨"s1", none⟩) (some ⟨"p1", some sampleNow⟩))).getter.GetServiceAccount
              priv.Kubernetes.Namespace priv.Kubernetes.Svcacct.Name = .ok sa ∧
          (∀ d, sa.DeletionTimestamp = some d →
            sampleNow - (stubJwt minute none).DefaultLeeway ≤ d) ∧
          sa.UID = priv.Kubernetes.Svcacct.UID) ∧
      (∀ secref, priv.Kubernetes.Secret = some secref →
        ∃ secret, (NewValidator (sampleGetter (some ⟨"u1", none⟩)
            (some ⟨"s1", none⟩) (some ⟨"p1", some sampleNow⟩))).getter.GetSecret
              priv.Kubernetes.Namespace secref.Name = .ok secret ∧
          (∀ d, secret.DeletionTimestamp = some d →
              sampleNow - (stubJwt minute none).DefaultLeeway ≤ d) ∧
          secret.UID = secref.UID) ∧
      (∀ podref, priv.Kubernetes.Pod = some podref →
        ∃ pod, (NewValidator (sampleGetter (some ⟨"u1", none⟩)
            (some ⟨"s1", none⟩) (some ⟨"p1", some sampleNow⟩))).getter.GetPod
              priv.Kubernetes.Namespace podref.Name = .ok pod ∧
          (∀ d, pod.DeletionTimestamp = some d →
              sampleNow - (stubJwt minute none).DefaultLeeway ≤ d) ∧
          pod.UID = podref.UID) :=
  ⟨by decide,
    Validate_sound (stubJwt minute none)
      (NewValidator (sampleGetter (some ⟨"u1", none⟩) (some ⟨"s1", none⟩)
        (some ⟨"p1", some sampleNow⟩)))
      sampleNow (sampleToken none none)
      (.claims (sampleClaims (some ⟨"sec1", "s1"⟩) (some ⟨"pod1", "p1"⟩)))
      ⟨"ns1", "sa1", "u1", "pod1", "p1"⟩ (by decide)⟩

/-- C2. Completeness of acceptance and exact result: when the time-window
check passes, the account is found, not deleted before `now - leeway` and
UID-matching, and each present secret or pod binding is likewise found, not
deleted before `now - leeway` and UID-matching, `Validate` succeeds; the
result has the claimed namespace and account name, the store's account UID,
the claimed pod name and the store's pod UID when a pod is claimed, and empty
pod name and pod UID otherwise. -/
theorem Validate_complete (jwt : JwtPackage) (v : validator) (now : Time)
    (pub : Claims) (priv : privateClaims) (sa : ServiceAccount)
    (htw : jwt.Validate pub { Time := now } = none)
    (hsa : v.getter.GetServiceAccount priv.Kubernetes.Namespace
        priv.Kubernetes.Svcacct.Name = .ok sa)
    (hlive : ∀ d, sa.DeletionTimestamp = some d → now - jwt.DefaultLeeway ≤ d)
    (huid : sa.UID = priv.Kubernetes.Svcacct.UID)
    (hsec : ∀ secref, priv.Kubernetes.Secret = some secref →
      ∃ secret, v.getter.GetSecret priv.Kubernetes.Namespace secref.Name
            = .ok secret ∧
        (∀ d, secret.DeletionTimestamp = some d →
            now - jwt.DefaultLeeway ≤ d) ∧
        secret.UID = secref.UID)
    (hpod : ∀ podref, priv.Kubernetes.Pod = some podref →
      ∃ pod, v.getter.GetPod priv.Kubernetes.Namespace podref.Name
            = .ok pod ∧
        (∀ d, pod.DeletionTimestamp = some d →
            now - jwt.DefaultLeeway ≤ d) ∧
        pod.UID = podref.UID) :
    ∃ info, (Validate jwt v now pub (.claims priv)).result = .ok info ∧
      info.Namespace = priv.Kubernetes.Namespace ∧
      info.Name = priv.Kubernetes.Svcacct.Name ∧
      info.UID = sa.UID ∧
      (∀ podref, priv.Kubernetes.Pod = some podref →
        info.PodName = podref.Name ∧
        ∀ pod, v.getter.GetPod priv.Kubernetes.Namespace podref.Name
            = .ok pod → info.PodUID = pod.UID) ∧
      (priv.Kubernetes.Pod = none → info.PodName = "" ∧ info.PodUID = "") := by
  have ha := (accountGate_eq_true_iff v priv (now - jwt.DefaultLeeway)).2
    ⟨sa, hsa, hlive, huid⟩
  have hs := (secretGate_eq_true_iff v priv (now - jwt.DefaultLeeway)).2 hsec
  have hp := (podGate_eq_true_iff v priv (now - jwt.DefaultLeeway)).2 hpod
  rw [Validate_of_gates jwt v now pub priv htw ha hs hp]
  refine ⟨_, rfl, rfl, rfl, huid.symm, fun podref hr => ?_, fun hn => ?_⟩
  · obtain ⟨pod, hg, _, hu⟩ := hpod podref hr
    rw [hr]
    refine ⟨rfl, fun pod2 hg2 => ?_⟩
    rw [hg] at hg2
    cases hg2
    exact hu.symm
  · rw [hn]
    exact ⟨rfl, rfl⟩

/-- Witness of C2: namespace `ns1`, account `sa1` with UID `u1` alive and
matching, no secret and no pod claimed. -/
theorem Validate_complete_witness :
    (Validate (stubJwt minute none)
        (NewValidator (sampleGetter (some ⟨"u1", none⟩) none none))
        sampleNow (sampleToken none none)
        (.claims (sampleClaims none none))).result
      = .ok ⟨"ns1", "sa1", "u1", "", ""⟩
    ∧ ∃ info, (Validate (stubJwt minute none)
        (NewValidator (sampleGetter (some ⟨"u1", none⟩) none none))
        sampleNow (sampleToken none none)
        (.claims (sampleClaims none none))).result = .ok info ∧
      info.Namespace = "ns1" ∧ info.Name = "sa1" ∧ info.UID = "u1" ∧
      (∀ podref, (sampleClaims none none).Kubernetes.Pod = some podref →
        info.PodName = podref.Name ∧
        ∀ pod, (NewValidator (sampleGetter (some ⟨"u1", none⟩) none
              none)).getter.GetPod "ns1" podref.Name
            = .ok pod → info.PodUID = pod.UID) ∧
      ((sampleClaims none none).Kubernetes.Pod = none →
        info.PodName = "" ∧ info.PodUID = "") :=
  ⟨by decide,
    Validate_complete (stubJwt minute none)
      (NewValidator (sampleGetter (some ⟨"u1", none⟩) none none))
      sampleNow (sampleToken none none) (sampleClaims none none)
      ⟨"u1", none⟩ rfl (by decide) (by simp) rfl
      (fun r hr => by simp [sampleClaims] at hr)
      (fun r hr => by simp [sampleClaims] at hr)⟩

/-! ## Binding failures -/

/-- C3, as the code has it. With the time-window check and the account
check passed and a secret claimed: a failed secret lookup and a secret deleted
before `now - leeway` are both rejected with the generic error "service
account token has been invalidated"; a secret that is found, not deleted
before `now - leeway`, and whose UID differs from the claimed one is rejected
with the specific error "secret UID (<store UID>) does not match service
account secret ref claim (<claimed UID>)". -/
theorem Validate_secret_failure (jwt : JwtPackage) (v : validator)
    (now : Time) (pub : Claims) (priv : privateClaims) (sa : ServiceAccount)
    (secref : ref)
    (htw : jwt.Validate pub { Time := now } = none)
    (hsa : v.getter.GetServiceAccount priv.Kubernetes.Namespace
        priv.Kubernetes.Svcacct.Name = .ok sa)
    (hlive : ∀ d, sa.DeletionTimestamp = some d → now - jwt.DefaultLeeway ≤ d)
    (huid : sa.UID = priv.Kubernetes.Svcacct.UID)
    (hs : priv.Kubernetes.Secret = some secref) :
    (∀ e, v.getter.GetSecret priv.Kubernetes.Namespace secref.Name = .error e →
      (Validate jwt v now pub (.claims priv)).result
        = .error (.errorf "service account token has been invalidated")) ∧
    (∀ secret d,
      v.getter.GetSecret priv.Kubernetes.Namespace secref.Name = .ok secret →
      secret.DeletionTimestamp = some d → d < now - jwt.DefaultLeeway →
      (Validate jwt v now pub (.claims priv)).result
        = .error (.errorf "service account token has been invalidated")) ∧
    (∀ secret,
      v.getter.GetSecret priv.Kubernetes.Namespace secref.Name = .ok secret →
      (∀ d, secret.DeletionTimestamp = some d → now - jwt.DefaultLeeway ≤ d) →
      secret.UID ≠ secref.UID →
      (Validate jwt v now pub (.claims priv)).result
        = .error (.errorf ("secret UID (" ++ secret.UID
            ++ ") does not match service account secret ref claim ("
            ++ secref.UID ++ ")"))) := by
  have ha := (accountGate_eq_true_iff v priv (now - jwt.DefaultLeeway)).2
    ⟨sa, hsa, hlive, huid⟩
  rw [Validate_of_account_ok jwt v now pub priv htw ha]
  refine ⟨fun e hg => ?_, fun secret d hg hd hlt => ?_, fun secret hg hl hne => ?_⟩
  · rw [Validate.secret_of_lookup_error v priv _ _ secref e hs hg]
    rfl
  · rw [Validate.secret_of_deleted v priv _ _ secref secret hs hg
      ((deletedBefore_eq_true_iff _ _).2 ⟨d, hd, hlt⟩)]
    rfl
  · rw [Validate.secret_of_uid v priv _ _ secref secret hs hg
      ((deletedBefore_eq_false_iff _ _).2 hl) hne]

/-- Witness of C3 as amended: the claimed secret `sec1` with UID `s1` is in
the store with UID `s2`. -/
theorem Validate_secret_failure_witness :
    (Validate (stubJwt minute none)
        (NewValidator (sampleGetter (some ⟨"u1", none⟩) (some ⟨"s2", none⟩)
          none))
        sampleNow (sampleToken none none)
        (.claims (sampleClaims (some ⟨"sec1", "s1"⟩) none))).result
      = .error (.errorf ("secret UID (" ++ "s2"
          ++ ") does not match service account secret ref claim ("
          ++ "s1" ++ ")")) :=
  (Validate_secret_failure (stubJwt minute none)
      (NewValidator (sampleGetter (some ⟨"u1", none⟩) (some ⟨"s2", none⟩)
        none))
      sampleNow (sampleToken none none)
      (sampleClaims (some ⟨"sec1", "s1"⟩) none) ⟨"u1", none⟩ ⟨"sec1", "s1"⟩
      rfl (by decide) (by simp) rfl rfl).2.2 ⟨"s2", none⟩ (by decide) (by simp)
    (by decide)

/-- Counterexample to C3 as stated: the time-window check and the account
check pass, the secret `sec1` is claimed with UID `s1`, the store holds it
with UID `s2` and no deletion timestamp; `Validate` rejects with the specific
secret-UID error and not with the generic one. -/
theorem secret_uid_mismatch_is_specific :
    (stubJwt minute none).Validate (sampleToken none none)
        { Time := sampleNow } = none
    ∧ accountGate
        (NewValidator (sampleGetter (some ⟨"u1", none⟩) (some ⟨"s2", none⟩)
          none))
        (sampleClaims (some ⟨"sec1", "s1"⟩) none)
        (sampleNow - (stubJwt minute none).DefaultLeeway) = true
    ∧ (sampleClaims (some ⟨"sec1", "s1"⟩) none).Kubernetes.Secret
        = some ⟨"sec1", "s1"⟩
    ∧ (NewValidator (sampleGetter (some ⟨"u1", none⟩) (some ⟨"s2", none⟩)
          none)).getter.GetSecret "ns1" "sec1" = .ok ⟨"s2", none⟩
    ∧ (Validate (stubJwt minute none)
        (NewValidator (sampleGetter (some ⟨"u1", none⟩) (some ⟨"s2", none⟩)
          none))
        sampleNow (sampleToken none none)
        (.claims (sampleClaims (some ⟨"sec1", "s1"⟩) none))).result
      = .error (.errorf
          "secret UID (s2) does not match service account secret ref claim (s1)")
    ∧ (Validate (stubJwt minute none)
        (NewValidator (sampleGetter (some ⟨"u1", none⟩) (some ⟨"s2", none⟩)
          none))
        sampleNow (sampleToken none none)
        (.claims (sampleClaims (some ⟨"sec1", "s1"⟩) none))).result
      ≠ .error (.errorf "service account token has been invalidated") := by
  decide

/-- C4, as the code has it. With the time-window check, the account check
and the secret check (if a secret is claimed) passed and a pod claimed: a
failed pod lookup and a pod deleted before `now - leeway` are both rejected
with the generic error "service account token has been invalidated"; a pod
that is found, not deleted before `now - leeway`, and whose UID differs from
the claimed one is rejected with the specific error "pod UID (<store UID>)
does not match service account pod ref claim (<claimed UID>)". -/
theorem Validate_pod_failure (jwt : JwtPackage) (v : validator)
    (now : Time) (pub : Claims) (priv : privateClaims) (sa : ServiceAccount)
    (podref : ref)
    (htw : jwt.Validate pub { Time := now } = none)
    (hsa : v.getter.GetServiceAccount priv.Kubernetes.Namespace
        priv.Kubernetes.Svcacct.Name = .ok sa)
    (hlive : ∀ d, sa.DeletionTimestamp = some d → now - jwt.DefaultLeeway ≤ d)
    (huid : sa.UID = priv.Kubernetes.Svcacct.UID)
    (hsec : ∀ secref, priv.Kubernetes.Secret = some secref →
      ∃ secret, v.getter.GetSecret priv.Kubernetes.Namespace secref.Name
            = .ok secret ∧
        (∀ d, secret.DeletionTimestamp = some d →
            now - jwt.DefaultLeeway ≤ d) ∧
        secret.UID = secref.UID)
    (hp : priv.Kubernetes.Pod = some podref) :
    (∀ e, v.getter.GetPod priv.Kubernetes.Namespace podref.Name = .error e →
      (Validate jwt v now pub (.claims priv)).result
        = .error (.errorf "service account token has been invalidated")) ∧
    (∀ pod d,
      v.getter.GetPod priv.Kubernetes.Namespace podref.Name = .ok pod →
      pod.DeletionTimestamp = some d → d < now - jwt.DefaultLeeway →
      (Validate jwt v now pub (.claims priv)).result
        = .error (.errorf "service account token has been invalidated")) ∧
    (∀ pod,
      v.getter.GetPod priv.Kubernetes.Namespace podref.Name = .ok pod →
      (∀ d, pod.DeletionTimestamp = some d → now - jwt.DefaultLeeway ≤ d) →
      pod.UID ≠ podref.UID →
      (Validate jwt v now pub (.claims priv)).result
        = .error (.errorf ("pod UID (" ++ pod.UID
            ++ ") does not match service account pod ref claim ("
            ++ podref.UID ++ ")"))) := by
  have ha := (accountGate_eq_true_iff v priv (now - jwt.DefaultLeeway)).2
    ⟨sa, hsa, hlive, huid⟩
  have hg := (secretGate_eq_true_iff v priv (now - jwt.DefaultLeeway)).2 hsec
  rw [Validate_of_account_ok jwt v now pub priv htw ha,
    Validate.secret_of_gate v priv _ _ hg]
  refine ⟨fun e hl => ?_, fun pod d hl hd hlt => ?_, fun pod hl hn hne => ?_⟩
  · rw [Validate.pod_of_lookup_error v priv _ _ podref e hp hl]
    rfl
  · rw [Validate.pod_of_deleted v priv _ _ podref pod hp hl
      ((deletedBefore_eq_true_iff _ _).2 ⟨d, hd, hlt⟩)]
    rfl
  · rw [Validate.pod_of_uid v priv _ _ podref pod hp hl
      ((deletedBefore_eq_false_iff _ _).2 hn) hne]

/-- Witness of C4 as amended: the claimed pod `pod1` with UID `p1` was
deleted one second before `now - leeway`. -/
theorem Validate_pod_failure_witness :
    (Validate (stubJwt minute none)
        (NewValidator (sampleGetter (some ⟨"u1", none⟩) none
          (some ⟨"p1", some (sampleNow - minute - second)⟩)))
        sampleNow (sampleToken none none)
        (.claims (sampleClaims none (some ⟨"pod1", "p1"⟩)))).result
      = .error (.errorf "service account token has been invalidated") :=
  (Validate_pod_failure (stubJwt minute none)
      (NewValidator (sampleGetter (some ⟨"u1", none⟩) none
        (some ⟨"p1", some (sampleNow - minute - second)⟩)))
      sampleNow (sampleToken none none)
      (sampleClaims none (some ⟨"pod1", "p1"⟩)) ⟨"u1", none⟩ ⟨"pod1", "p1"⟩
      rfl (by decide) (by simp) rfl
      (fun r hr => by simp [sampleClaims] at hr) rfl).2.1
    ⟨"p1", some (sampleNow - minute - second)⟩ (sampleNow - minute - second)
    (by decide) rfl (by decide)

/-- Counterexample to C4 as stated: the time-window check, the account check
and the secret check pass, the pod `pod1` is claimed with UID `p1`, the store
holds it with UID `p2` and no deletion timestamp; `Validate` rejects with the
specific pod-UID error and not with the generic one. -/
theorem pod_uid_mismatch_is_specific :
    (stubJwt minute none).Validate (sampleToken none none)
        { Time := sampleNow } = none
    ∧ accountGate
        (NewValidator (sampleGetter (some ⟨"u1", none⟩) (some ⟨"s1", none⟩)
          (some ⟨"p2", none⟩)))
        (sampleClaims (some ⟨"sec1", "s1"⟩) (some ⟨"pod1", "p1"⟩))
        (sampleNow - (stubJwt minute none).DefaultLeeway) = true
    ∧ secretGate
        (NewValidator (sampleGetter (some ⟨"u1", none⟩) (some ⟨"s1", none⟩)
          (some ⟨"p2", none⟩)))
        (sampleClaims (some ⟨"sec1", "s1"⟩) (some ⟨"pod1", "p1"⟩))
        (sampleNow - (stubJwt minute none).DefaultLeeway) = true
    ∧ (sampleClaims (some ⟨"sec1", "s1"⟩)
          (some ⟨"pod1", "p1"⟩)).Kubernetes.Pod = some ⟨"pod1", "p1"⟩
    ∧ (NewValidator (sampleGetter (some ⟨"u1", none⟩) (some ⟨"s1", none⟩)
          (some ⟨"p2", none⟩))).getter.GetPod "ns1" "pod1" = .ok ⟨"p2", none⟩
    ∧ (Validate (stubJwt minute none)
        (NewValidator (sampleGetter (some ⟨"u1", none⟩) (some ⟨"s1", none⟩)
          (some ⟨"p2", none⟩)))
        sampleNow (sampleToken none none)
        (.claims (sampleClaims (some ⟨"sec1", "s1"⟩)
          (some ⟨"pod1", "p1"⟩)))).result
      = .error (.errorf
          "pod UID (p2) does not match service account pod ref claim (p1)")
    ∧ (Validate (stubJwt minute none)
        (NewValidator (sampleGetter (some ⟨"u1", none⟩) (some ⟨"s1", none⟩)
          (some ⟨"p2", none⟩)))
        sampleNow (sampleToken none none)
        (.claims (sampleClaims (some ⟨"sec1", "s1"⟩)
          (some ⟨"pod1", "p1"⟩)))).result
      ≠ .error (.errorf "service account token has been invalidated") := by
  decide

/-! ## The account gate -/

/-- C5. Account grace window with inclusive boundary: with the time-window
check passed and the account found with a deletion timestamp `d`, if `d` is
at or after `now - leeway` and every other check passes (account UID, secret
and pod bindings) then `Validate` succeeds; if `d` is strictly before
`now - leeway` then `Validate` rejects with "service account <ns>/<name> has
been deleted". -/
theorem Validate_account_grace (jwt : JwtPackage) (v : validator)
    (now : Time) (pub : Claims) (priv : privateClaims) (sa : ServiceAccount)
    (d : Time)
    (htw : jwt.Validate pub { Time := now } = none)
    (hsa : v.getter.GetServiceAccount priv.Kubernetes.Namespace
        priv.Kubernetes.Svcacct.Name = .ok sa)
    (hd : sa.DeletionTimestamp = some d) :
    (now - jwt.DefaultLeeway ≤ d →
      sa.UID = priv.Kubernetes.Svcacct.UID →
      (∀ secref, priv.Kubernetes.Secret = some secref →
        ∃ secret, v.getter.GetSecret priv.Kubernetes.Namespace secref.Name
              = .ok secret ∧
          (∀ t, secret.DeletionTimestamp = some t →
              now - jwt.DefaultLeeway ≤ t) ∧
          secret.UID = secref.UID) →
      (∀ podref, priv.Kubernetes.Pod = some podref →
        ∃ pod, v.getter.GetPod priv.Kubernetes.Namespace podref.Name
              = .ok pod ∧
          (∀ t, pod.DeletionTimestamp = some t →
              now - jwt.DefaultLeeway ≤ t) ∧
          pod.UID = podref.UID) →
      ∃ info, (Validate jwt v now pub (.claims priv)).result = .ok info) ∧
    (d < now - jwt.DefaultLeeway →
      (Validate jwt v now pub (.claims priv)).result
        = .error (.errorf ("service account " ++ priv.Kubernetes.Namespace
            ++ "/" ++ priv.Kubernetes.Svcacct.Name ++ " has been deleted"))) := by
  refine ⟨fun hle huid hsec hpod => ?_, fun hlt => ?_⟩
  · have ha := (accountGate_eq_true_iff v priv (now - jwt.DefaultLeeway)).2
      ⟨sa, hsa, fun t ht => by rw [hd] at ht; cases ht; exact hle, huid⟩
    have hs := (secretGate_eq_true_iff v priv (now - jwt.DefaultLeeway)).2 hsec
    have hp := (podGate_eq_true_iff v priv (now - jwt.DefaultLeeway)).2 hpod
    rw [Validate_of_gates jwt v now pub priv htw ha hs hp]
    exact ⟨_, rfl⟩
  · rw [Validate_of_account_deleted jwt v now pub priv sa htw hsa
      ((deletedBefore_eq_true_iff _ _).2 ⟨d, hd, hlt⟩)]

/-- Witness of C5: the account `sa1` was deleted exactly at `now - leeway`;
the token is still accepted. -/
theorem Validate_account_grace_witness :
    ∃ info, (Validate (stubJwt minute none)
        (NewValidator (sampleGetter
          (some ⟨"u1", some (sampleNow - minute)⟩) none none))
        sampleNow (sampleToken none none)
        (.claims (sampleClaims none none))).result = .ok info :=
  (Validate_account_grace (stubJwt minute none)
      (NewValidator (sampleGetter
        (some ⟨"u1", some (sampleNow - minute)⟩) none none))
      sampleNow (sampleToken none none) (sampleClaims none none)
      ⟨"u1", some (sampleNow - minute)⟩ (sampleNow - minute)
      rfl (by decide) rfl).1 (by decide) rfl
    (fun r hr => by simp [sampleClaims] at hr)
    (fun r hr => by simp [sampleClaims] at hr)

/-- C6. Account UID mismatch: with the time-window check passed, the account
found and not deleted before `now - leeway`, a store UID that differs from
the claimed account UID makes `Validate` reject with "service account UID
(<store UID>) does not match claim (<claimed UID>)", whatever the secret and
pod bindings are. -/
theorem Validate_account_uid_mismatch (jwt : JwtPackage) (v : validator)
    (now : Time) (pub : Claims) (priv : privateClaims) (sa : ServiceAccount)
    (htw : jwt.Validate pub { Time := now } = none)
    (hsa : v.getter.GetServiceAccount priv.Kubernetes.Namespace
        priv.Kubernetes.Svcacct.Name = .ok sa)
    (hlive : ∀ d, sa.DeletionTimestamp = some d → now - jwt.DefaultLeeway ≤ d)
    (hne : sa.UID ≠ priv.Kubernetes.Svcacct.UID) :
    (Validate jwt v now pub (.claims priv)).result
      = .error (.errorf ("service account UID (" ++ sa.UID
          ++ ") does not match claim (" ++ priv.Kubernetes.Svcacct.UID
          ++ ")")) := by
  rw [Validate_of_account_uid jwt v now pub priv sa htw hsa
    ((deletedBefore_eq_false_iff _ _).2 hlive) hne]

/-- Witness of C6: the account is claimed with UID `u1` and the store holds
it with UID `u2`. -/
theorem Validate_account_uid_mismatch_witness :
    (Validate (stubJwt minute none)
        (NewValidator (sampleGetter (some ⟨"u2", none⟩) none none))
        sampleNow (sampleToken none none)
        (.claims (sampleClaims none none))).result
      = .error (.errorf ("service account UID (" ++ "u2"
          ++ ") does not match claim (" ++ "u1" ++ ")")) :=
  Validate_account_uid_mismatch (stubJwt minute none)
    (NewValidator (sampleGetter (some ⟨"u2", none⟩) none none))
    sampleNow (sampleToken none none) (sampleClaims none none)
    ⟨"u2", none⟩ rfl (by decide) (by simp) (by decide)

/-! ## The time window -/

/-- C7, as amended. With the token layer of the specification: for every
public claims value whose expiry lies before `now - leeway` and whose
not-before is absent or not after `now + leeway`, and for every private
claims value and every store, `Validate` rejects with "service account token
has expired", and makes no store lookup. -/
theorem Validate_expired (leeway : Duration) (v : validator) (now : Time)
    (pub : Claims) (priv : privateClaims) (exp : Time)
    (hexp : pub.Expiry = some exp) (hlt : exp < now - leeway)
    (hnbf : ∀ nbf, pub.NotBefore = some nbf → nbf ≤ now + leeway) :
    Validate (specJwt leeway) v now pub (.claims priv) =
      ⟨[Call.now, Call.publicValidate],
        .error (.errorf "service account token has expired")⟩ := by
  apply Validate_of_ErrExpired
  have h1 : (match pub.NotBefore with
      | some nbf => Time.Before (Time.Add now leeway) nbf
      | none => false) = false := by
    cases hn : pub.NotBefore with
    | none => rfl
    | some nbf =>
      have := hnbf nbf hn
      simp only [Time.Before, Time.Add, decide_eq_false_iff_not, not_lt]
      exact this
  have h2 : Time.Before exp (Time.Add now (-leeway)) = true := by
    simp only [Time.Before, Time.add_neg, decide_eq_true_eq]
    exact hlt
  simp only [specJwt, Claims.Validate, h1, hexp, h2, Bool.false_eq_true,
    if_false, if_true]

/-- Witness of C7 as amended: a token that expired one second before
`now - leeway`, with no not-before claim. -/
theorem Validate_expired_witness :
    Validate (specJwt minute)
        (NewValidator (sampleGetter (some ⟨"u1", none⟩) none none))
        sampleNow (sampleToken none (some (sampleNow - minute - second)))
        (.claims (sampleClaims none none)) =
      ⟨[Call.now, Call.publicValidate],
        .error (.errorf "service account token has expired")⟩ :=
  Validate_expired minute
    (NewValidator (sampleGetter (some ⟨"u1", none⟩) none none))
    sampleNow (sampleToken none (some (sampleNow - minute - second)))
    (sampleClaims none none) (sampleNow - minute - second) rfl (by decide)
    (fun nbf h => by simp [sampleToken] at h)

/-- Counterexample to C7 as stated, with the token layer of the
specification and a leeway of one minute. A token whose expiry is one second
before `now` passes the time-window check and is accepted; a token whose
expiry is two minutes before `now` and whose not-before is two minutes after
`now` is rejected as not yet valid, not as expired. -/
theorem expiry_before_now_not_rejected_as_expired :
    (sampleNow - second < sampleNow
      ∧ (Validate (specJwt minute)
          (NewValidator (sampleGetter (some ⟨"u1", none⟩) none none))
          sampleNow (sampleToken none (some (sampleNow - second)))
          (.claims (sampleClaims none none))).result
        = .ok ⟨"ns1", "sa1", "u1", "", ""⟩)
    ∧ (sampleNow - 2 * minute < sampleNow
      ∧ (Validate (specJwt minute)
          (NewValidator (sampleGetter (some ⟨"u1", none⟩) none none))
          sampleNow
          (sampleToken (some (sampleNow + 2 * minute))
            (some (sampleNow - 2 * minute)))
          (.claims (sampleClaims none none))).result
        = .error (.errorf "service account token is not valid yet")) := by
  decide

/-- C8, as amended. With the token layer of the specification: for every
public claims value whose not-before lies after `now + leeway`, `Validate`
rejects with "service account token is not valid yet", and makes no store
lookup, whatever the expiry, the private claims and the store. -/
theorem Validate_not_valid_yet (leeway : Duration) (v : validator)
    (now : Time) (pub : Claims) (priv : privateClaims) (nbf : Time)
    (hnbf : pub.NotBefore = some nbf) (hgt : now + leeway < nbf) :
    Validate (specJwt leeway) v now pub (.claims priv) =
      ⟨[Call.now, Call.publicValidate],
        .error (.errorf "service account token is not valid yet")⟩ := by
  apply Validate_of_ErrNotValidYet
  have h1 : Time.Before (Time.Add now leeway) nbf = true := by
    simp only [Time.Before, Time.Add, decide_eq_true_eq]
    exact hgt
  simp only [specJwt, Claims.Validate, hnbf, h1, if_true]

/-- Witness of C8 as amended: a token whose not-before is one second after
`now + leeway`. -/
theorem Validate_not_valid_yet_witness :
    Validate (specJwt minute)
        (NewValidator (sampleGetter (some ⟨"u1", none⟩) none none))
        sampleNow (sampleToken (some (sampleNow + minute + second)) none)
        (.claims (sampleClaims none none)) =
      ⟨[Call.now, Call.publicValidate],
        .error (.errorf "service account token is not valid yet")⟩ :=
  Validate_not_valid_yet minute
    (NewValidator (sampleGetter (some ⟨"u1", none⟩) none none))
    sampleNow (sampleToken (some (sampleNow + minute + second)) none)
    (sampleClaims none none) (sampleNow + minute + second) rfl (by decide)

/-- Counterexample to C8 as stated, with the token layer of the
specification and a leeway of one minute: a token whose not-before is one
second after `now` passes the time-window check and is accepted. -/
theorem not_before_after_now_not_rejected :
    sampleNow < sampleNow + second
    ∧ (Validate (specJwt minute)
        (NewValidator (sampleGetter (some ⟨"u1", none⟩) none none))
        sampleNow (sampleToken (some (sampleNow + second)) none)
        (.claims (sampleClaims none none))).result
      = .ok ⟨"ns1", "sa1", "u1", "", ""⟩ := by
  decide

/-! ## Store lookups -/

/-- C9. Absent bindings are never looked up: when the private claims carry
no secret reference, no call of `Validate` is a `GetSecret`; when they carry
no pod reference, no call of `Validate` is a `GetPod`. -/
theorem Validate_absent_binding_not_looked_up (jwt : JwtPackage)
    (v : validator) (now : Time) (pub : Claims) (priv : privateClaims) :
    (priv.Kubernetes.Secret = none →
      ∀ ns name, Call.GetSecret ns name
        ∉ (Validate jwt v now pub (.claims priv)).calls) ∧
    (priv.Kubernetes.Pod = none →
      ∀ ns name, Call.GetPod ns name
        ∉ (Validate jwt v now pub (.claims priv)).calls) := by
  cases htw : jwt.Validate pub { Time := now } with
  | some err =>
    have hc := Validate_calls_of_window_error jwt v now pub priv
      (by rw [htw]; exact Option.some_ne_none err)
    rw [hc]
    simp
  | none =>
    rw [Validate_calls_of_window jwt v now pub priv htw]
    refine ⟨fun hs ns name => ?_, fun hp ns name => ?_⟩
    · have h1 : secretLookup priv = [] := by simp [secretLookup, hs]
      rw [h1]
      unfold podLookup
      cases priv.Kubernetes.Pod <;> split_ifs <;> simp [accountCalls]
    · have h1 : podLookup priv = [] := by simp [podLookup, hp]
      rw [h1]
      unfold secretLookup
      cases priv.Kubernetes.Secret <;> split_ifs <;> simp [accountCalls]

/-- Witness of C9: claims with a pod reference and no secret reference, on a
store that holds everything; the calls are the clock, the time-window check,
the account lookup and the pod lookup. -/
theorem Validate_absent_binding_not_looked_up_witness :
    (Validate (stubJwt minute none)
        (NewValidator (sampleGetter (some ⟨"u1", none⟩) (some ⟨"s1", none⟩)
          (some ⟨"p1", none⟩)))
        sampleNow (sampleToken none none)
        (.claims (sampleClaims none (some ⟨"pod1", "p1"⟩)))).calls
      = [Call.now, Call.publicValidate, Call.GetServiceAccount "ns1" "sa1",
          Call.GetPod "ns1" "pod1"]
    ∧ ∀ ns name, Call.GetSecret ns name
        ∉ (Validate (stubJwt minute none)
            (NewValidator (sampleGetter (some ⟨"u1", none⟩)
              (some ⟨"s1", none⟩) (some ⟨"p1", none⟩)))
            sampleNow (sampleToken none none)
            (.claims (sampleClaims none (some ⟨"pod1", "p1"⟩)))).calls :=
  ⟨by decide,
    (Validate_absent_binding_not_looked_up (stubJwt minute none)
      (NewValidator (sampleGetter (some ⟨"u1", none⟩) (some ⟨"s1", none⟩)
        (some ⟨"p1", none⟩)))
      sampleNow (sampleToken none none)
      (sampleClaims none (some ⟨"pod1", "p1"⟩))).1 rfl⟩

/-- C10. Fixed gate order and early termination. The calls of `Validate`
are the clock and the time-window check followed by its store lookups; the
store lookups are an initial segment of: the account lookup, the secret
lookup if a secret is claimed, the pod lookup if a pod is claimed. There is
no lookup when the time-window check fails; only the account lookup when the
account gate fails; no pod lookup when the secret gate fails; and all the
planned lookups once the account and secret gates pass. A private object of
another type causes no call at all. -/
theorem Validate_gate_order (jwt : JwtPackage) (v : validator) (now : Time)
    (pub : Claims) (priv : privateClaims) :
    (Validate jwt v now pub (.claims priv)).calls
      = [Call.now, Call.publicValidate]
        ++ (Validate jwt v now pub (.claims priv)).storeCalls
    ∧ (Validate jwt v now pub (.claims priv)).storeCalls
        <+: plannedLookups priv
    ∧ (jwt.Validate pub { Time := now } ≠ none →
        (Validate jwt v now pub (.claims priv)).storeCalls = [])
    ∧ (jwt.Validate pub { Time := now } = none →
        accountGate v priv (now - jwt.DefaultLeeway) = false →
        (Validate jwt v now pub (.claims priv)).storeCalls
          = [Call.GetServiceAccount priv.Kubernetes.Namespace
              priv.Kubernetes.Svcacct.Name])
    ∧ (jwt.Validate pub { Time := now } = none →
        accountGate v priv (now - jwt.DefaultLeeway) = true →
        secretGate v priv (now - jwt.DefaultLeeway) = false →
        (Validate jwt v now pub (.claims priv)).storeCalls
          = [Call.GetServiceAccount priv.Kubernetes.Namespace
              priv.Kubernetes.Svcacct.Name] ++ secretLookup priv)
    ∧ (jwt.Validate pub { Time := now } = none →
        accountGate v priv (now - jwt.DefaultLeeway) = true →
        secretGate v priv (now - jwt.DefaultLeeway) = true →
        (Validate jwt v now pub (.claims priv)).storeCalls
          = plannedLookups priv)
    ∧ (∀ t, (Validate jwt v now pub (.other t)).calls = []) := by
  have hfail : jwt.Validate pub { Time := now } ≠ none →
      (Validate jwt v now pub (.claims priv)).storeCalls = [] := by
    intro h
    unfold Outcome.storeCalls
    rw [Validate_calls_of_window_error jwt v now pub priv h]
    simp [Call.isStore]
  refine ⟨?_, ?_, hfail, ?_, ?_, ?_, fun t => rfl⟩
  · cases htw : jwt.Validate pub { Time := now } with
    | some err =>
      have hne : jwt.Validate pub { Time := now } ≠ none := by
        rw [htw]; exact Option.some_ne_none err
      rw [hfail hne, Validate_calls_of_window_error jwt v now pub priv hne]
      rfl
    | none =>
      rw [Validate_storeCalls_of_window jwt v now pub priv htw,
        Validate_calls_of_window jwt v now pub priv htw]
      simp [accountCalls]
  · cases htw : jwt.Validate pub { Time := now } with
    | some err =>
      rw [hfail (by rw [htw]; exact Option.some_ne_none err)]
      exact List.nil_prefix
    | none =>
      rw [Validate_storeCalls_of_window jwt v now pub priv htw]
      unfold plannedLookups
      split_ifs
      · exact ⟨[], by simp⟩
      · exact ⟨podLookup priv, by simp⟩
      · exact ⟨secretLookup priv ++ podLookup priv, by simp⟩
  · intro htw ha
    rw [Validate_storeCalls_of_window jwt v now pub priv htw]
    simp [ha]
  · intro htw ha hs
    rw [Validate_storeCalls_of_window jwt v now pub priv htw]
    simp [ha, hs]
  · intro htw ha hs
    rw [Validate_storeCalls_of_window jwt v now pub priv htw]
    simp [ha, hs, plannedLookups]

/-- Witness of C10: the claimed secret is missing from the store, so
`Validate` stops after the account and secret lookups and never asks for the
claimed pod. -/
theorem Validate_gate_order_witness :
    (Validate (stubJwt minute none)
        (NewValidator (sampleGetter (some ⟨"u1", none⟩) none
          (some ⟨"p1", none⟩)))
        sampleNow (sampleToken none none)
        (.claims (sampleClaims (some ⟨"sec1", "s1"⟩)
          (some ⟨"pod1", "p1"⟩)))).storeCalls
      = [Call.GetServiceAccount "ns1" "sa1"]
        ++ secretLookup (sampleClaims (some ⟨"sec1", "s1"⟩)
          (some ⟨"pod1", "p1"⟩)) :=
  (Validate_gate_order (stubJwt minute none)
    (NewValidator (sampleGetter (some ⟨"u1", none⟩) none
      (some ⟨"p1", none⟩)))
    sampleNow (sampleToken none none)
    (sampleClaims (some ⟨"sec1", "s1"⟩) (some ⟨"pod1", "p1"⟩))).2.2.2.2.1
    rfl (by decide) (by decide)

/-! ## Outcomes of the time-window check -/

/-- C11. Opaque unexpected-validation error: when the time-window check
returns an error that is neither `ErrExpired`, `ErrNotValidYet` nor one of
the four audience, ID, issuer and subject sentinels, `Validate` rejects with
the fixed error "service account token claims could not be validated due to
unexpected validation error"; any other run whose time-window check returns
such an error, whatever its inputs, returns the identical value. -/
theorem Validate_unexpected_error_fixed (jwt : JwtPackage) (v : validator)
    (now : Time) (pub : Claims) (priv : privateClaims) (err : GoError)
    (htw : jwt.Validate pub { Time := now } = some err)
    (h1 : err ≠ .ErrExpired) (h2 : err ≠ .ErrNotValidYet)
    (h3 : err ≠ .ErrInvalidAudience) (h4 : err ≠ .ErrInvalidID)
    (h5 : err ≠ .ErrInvalidIssuer) (h6 : err ≠ .ErrInvalidSubject) :
    (Validate jwt v now pub (.claims priv)).result
      = .error (.errorf
          "service account token claims could not be validated due to unexpected validation error")
    ∧ ∀ (jwt2 : JwtPackage) (v2 : validator) (now2 : Time) (pub2 : Claims)
        (priv2 : privateClaims) (err2 : GoError),
        jwt2.Validate pub2 { Time := now2 } = some err2 →
        err2 ≠ .ErrExpired → err2 ≠ .ErrNotValidYet →
        err2 ≠ .ErrInvalidAudience → err2 ≠ .ErrInvalidID →
        err2 ≠ .ErrInvalidIssuer → err2 ≠ .ErrInvalidSubject →
        (Validate jwt2 v2 now2 pub2 (.claims priv2)).result
          = (Validate jwt v now pub (.claims priv)).result := by
  rw [Validate_of_unexpected jwt v now pub priv err htw h1 h2 h3 h4 h5 h6]
  refine ⟨rfl, fun jwt2 v2 now2 pub2 priv2 err2 k a1 a2 a3 a4 a5 a6 => ?_⟩
  rw [Validate_of_unexpected jwt2 v2 now2 pub2 priv2 err2 k a1 a2 a3 a4 a5 a6]

/-- Witness of C11: a token layer that reports an error of its own, "token
issued in the future". -/
theorem Validate_unexpected_error_fixed_witness :
    (Validate (stubJwt minute (some (.foreign "token issued in the future")))
        (NewValidator (sampleGetter (some ⟨"u1", none⟩) none none))
        sampleNow (sampleToken none none)
        (.claims (sampleClaims none none))).result
      = .error (.errorf
          "service account token claims could not be validated due to unexpected validation error") :=
  (Validate_unexpected_error_fixed
    (stubJwt minute (some (.foreign "token issued in the future")))
    (NewValidator (sampleGetter (some ⟨"u1", none⟩) none none))
    sampleNow (sampleToken none none) (sampleClaims none none)
    (.foreign "token issued in the future") rfl
    (by decide) (by decide) (by decide) (by decide) (by decide)
    (by decide)).1

/-- C15. Structurally-invalid outcomes keep their detail: when the
time-window check returns `ErrInvalidAudience`, `ErrInvalidID`,
`ErrInvalidIssuer` or `ErrInvalidSubject`, `Validate` rejects with the error
"service account token claims could not be validated: " wrapping that very
error and makes no store lookup; two runs whose time-window checks return
different ones of the four are rejected with different errors. -/
theorem Validate_invalid_claim_keeps_detail (jwt : JwtPackage) (v : validator)
    (now : Time) (pub : Claims) (priv : privateClaims) (err : GoError)
    (htw : jwt.Validate pub { Time := now } = some err)
    (hin : err = .ErrInvalidAudience ∨ err = .ErrInvalidID
      ∨ err = .ErrInvalidIssuer ∨ err = .ErrInvalidSubject) :
    (Validate jwt v now pub (.claims priv)).result
      = .error (.wrapf
          "service account token claims could not be validated: " err)
    ∧ (Validate jwt v now pub (.claims priv)).storeCalls = []
    ∧ ∀ (jwt2 : JwtPackage) (v2 : validator) (now2 : Time) (pub2 : Claims)
        (priv2 : privateClaims) (err2 : GoError),
        jwt2.Validate pub2 { Time := now2 } = some err2 →
        (err2 = .ErrInvalidAudience ∨ err2 = .ErrInvalidID
          ∨ err2 = .ErrInvalidIssuer ∨ err2 = .ErrInvalidSubject) →
        err2 ≠ err →
        (Validate jwt2 v2 now2 pub2 (.claims priv2)).result
          ≠ (Validate jwt v now pub (.claims priv)).result := by
  rw [Validate_of_invalid_claim jwt v now pub priv err htw hin]
  refine ⟨rfl, rfl, fun jwt2 v2 now2 pub2 priv2 err2 k hin2 hne => ?_⟩
  rw [Validate_of_invalid_claim jwt2 v2 now2 pub2 priv2 err2 k hin2]
  intro c
  apply hne
  simpa using c

/-- Witness of C15: a token layer that reports `ErrInvalidIssuer`. -/
theorem Validate_invalid_claim_keeps_detail_witness :
    (Validate (stubJwt minute (some .ErrInvalidIssuer))
        (NewValidator (sampleGetter (some ⟨"u1", none⟩) none none))
        sampleNow (sampleToken none none)
        (.claims (sampleClaims none none))).result
      = .error (.wrapf
          "service account token claims could not be validated: "
          .ErrInvalidIssuer) :=
  (Validate_invalid_claim_keeps_detail
    (stubJwt minute (some .ErrInvalidIssuer))
    (NewValidator (sampleGetter (some ⟨"u1", none⟩) none none))
    sampleNow (sampleToken none none) (sampleClaims none none)
    .ErrInvalidIssuer rfl (Or.inr (Or.inr (Or.inl rfl)))).1

/-! ## Account lookup errors -/

/-- C12. Account lookup errors propagate unchanged: when the time-window
check passes and `GetServiceAccount(namespace, account name)` returns an
error `e`, `Validate` returns no result and exactly `e`, whatever the secret
and pod references, and makes no further lookup. -/
theorem Validate_account_lookup_error (jwt : JwtPackage) (v : validator)
    (now : Time) (pub : Claims) (priv : privateClaims) (e : GoError)
    (htw : jwt.Validate pub { Time := now } = none)
    (hsa : v.getter.GetServiceAccount priv.Kubernetes.Namespace
        priv.Kubernetes.Svcacct.Name = .error e) :
    (Validate jwt v now pub (.claims priv)).result = .error e
    ∧ (Validate jwt v now pub (.claims priv)).storeCalls
      = [Call.GetServiceAccount priv.Kubernetes.Namespace
          priv.Kubernetes.Svcacct.Name] := by
  rw [Validate_of_account_error jwt v now pub priv e htw hsa]
  exact ⟨rfl, rfl⟩

/-- Witness of C12: a store without the account `sa1`, with secret and pod
references present in the claims. -/
theorem Validate_account_lookup_error_witness :
    (Validate (stubJwt minute none)
        (NewValidator (sampleGetter none (some ⟨"s1", none⟩)
          (some ⟨"p1", none⟩)))
        sampleNow (sampleToken none none)
        (.claims (sampleClaims (some ⟨"sec1", "s1"⟩)
          (some ⟨"pod1", "p1"⟩)))).result = .error notFound :=
  (Validate_account_lookup_error (stubJwt minute none)
    (NewValidator (sampleGetter none (some ⟨"s1", none⟩)
      (some ⟨"p1", none⟩)))
    sampleNow (sampleToken none none)
    (sampleClaims (some ⟨"sec1", "s1"⟩) (some ⟨"pod1", "p1"⟩))
    notFound rfl rfl).1

/-- C18. Deletion takes precedence over UID mismatch for the account: when
the time-window check passes and the account is found with a deletion
timestamp before `now - leeway` and a UID that differs from the claimed one,
`Validate` rejects with "service account <ns>/<name> has been deleted", which
is not the UID-mismatch error. -/
theorem Validate_deleted_before_uid_mismatch (jwt : JwtPackage)
    (v : validator) (now : Time) (pub : Claims) (priv : privateClaims)
    (sa : ServiceAccount) (d : Time)
    (htw : jwt.Validate pub { Time := now } = none)
    (hsa : v.getter.GetServiceAccount priv.Kubernetes.Namespace
        priv.Kubernetes.Svcacct.Name = .ok sa)
    (hd : sa.DeletionTimestamp = some d) (hlt : d < now - jwt.DefaultLeeway)
    (_hne : sa.UID ≠ priv.Kubernetes.Svcacct.UID) :
    (Validate jwt v now pub (.claims priv)).result
      = .error (.errorf ("service account " ++ priv.Kubernetes.Namespace
          ++ "/" ++ priv.Kubernetes.Svcacct.Name ++ " has been deleted"))
    ∧ (Validate jwt v now pub (.claims priv)).result
      ≠ .error (.errorf ("service account UID (" ++ sa.UID
          ++ ") does not match claim (" ++ priv.Kubernetes.Svcacct.UID
          ++ ")")) := by
  rw [Validate_of_account_deleted jwt v now pub priv sa htw hsa
    ((deletedBefore_eq_true_iff _ _).2 ⟨d, hd, hlt⟩)]
  refine ⟨rfl, fun c => ?_⟩
  have c2 : "service account " ++ priv.Kubernetes.Namespace ++ "/"
      ++ priv.Kubernetes.Svcacct.Name ++ " has been deleted"
      = "service account UID (" ++ sa.UID ++ ") does not match claim ("
        ++ priv.Kubernetes.Svcacct.UID ++ ")" := by
    simpa using c
  exact deleted_text_ne_mismatch_text _ _ _ c2

/-- Witness of C18: the account `sa1`, claimed with UID `u1`, is in the
store with UID `u2` and was deleted one second before `now - leeway`. -/
theorem Validate_deleted_before_uid_mismatch_witness :
    (Validate (stubJwt minute none)
        (NewValidator (sampleGetter
          (some ⟨"u2", some (sampleNow - minute - second)⟩) none none))
        sampleNow (sampleToken none none)
        (.claims (sampleClaims none none))).result
      = .error (.errorf ("service account " ++ "ns1" ++ "/" ++ "sa1"
          ++ " has been deleted")) :=
  (Validate_deleted_before_uid_mismatch (stubJwt minute none)
    (NewValidator (sampleGetter
      (some ⟨"u2", some (sampleNow - minute - second)⟩) none none))
    sampleNow (sampleToken none none) (sampleClaims none none)
    ⟨"u2", some (sampleNow - minute - second)⟩ (sampleNow - minute - second)
    rfl (by decide) rfl (by decide) (by decide)).1

/-! ## The private claims -/

/-- C14. `WarnAfter` does not influence the decision: two private claims
values that agree on the namespace, the account reference, the pod reference
and the secret reference, and so differ at most in `Kubernetes.WarnAfter`,
give the same outcome of `Validate` (result and calls) for the same clock,
public claims and store. -/
theorem Validate_ignores_WarnAfter (jwt : JwtPackage) (v : validator)
    (now : Time) (pub : Claims) (p1 p2 : privateClaims)
    (hns : p1.Kubernetes.Namespace = p2.Kubernetes.Namespace)
    (hsa : p1.Kubernetes.Svcacct = p2.Kubernetes.Svcacct)
    (hpod : p1.Kubernetes.Pod = p2.Kubernetes.Pod)
    (hsec : p1.Kubernetes.Secret = p2.Kubernetes.Secret) :
    Validate jwt v now pub (.claims p1) = Validate jwt v now pub (.claims p2) := by
  obtain ⟨⟨ns1, sa1, pod1, sec1, w1⟩⟩ := p1
  obtain ⟨⟨ns2, sa2, pod2, sec2, w2⟩⟩ := p2
  simp only at hns hsa hpod hsec
  subst hns hsa hpod hsec
  rfl

/-- Witness of C14: the sample claims with `WarnAfter` 0 and with
`WarnAfter` 1700000000. -/
theorem Validate_ignores_WarnAfter_witness :
    Validate (stubJwt minute none)
        (NewValidator (sampleGetter (some ⟨"u1", none⟩) none
          (some ⟨"p1", none⟩)))
        sampleNow (sampleToken none none)
        (.claims ⟨⟨"ns1", ⟨"sa1", "u1"⟩, some ⟨"pod1", "p1"⟩, none, 0⟩⟩)
      = Validate (stubJwt minute none)
        (NewValidator (sampleGetter (some ⟨"u1", none⟩) none
          (some ⟨"p1", none⟩)))
        sampleNow (sampleToken none none)
        (.claims ⟨⟨"ns1", ⟨"sa1", "u1"⟩, some ⟨"pod1", "p1"⟩, none,
          1700000000⟩⟩) :=
  Validate_ignores_WarnAfter (stubJwt minute none)
    (NewValidator (sampleGetter (some ⟨"u1", none⟩) none
      (some ⟨"p1", none⟩)))
    sampleNow (sampleToken none none)
    ⟨⟨"ns1", ⟨"sa1", "u1"⟩, some ⟨"pod1", "p1"⟩, none, 0⟩⟩
    ⟨⟨"ns1", ⟨"sa1", "u1"⟩, some ⟨"pod1", "p1"⟩, none, 1700000000⟩⟩
    rfl rfl rfl rfl

/-- C16. `NewPrivateClaims` returns an empty claims instance: a
`*privateClaims` whose namespace, account name and account UID are empty
strings, whose pod and secret references are absent and whose `WarnAfter` is
zero; validating it as it stands looks up neither a secret nor a pod. -/
theorem NewPrivateClaims_empty :
    (∃ p, NewPrivateClaims = .claims p
      ∧ p.Kubernetes.Namespace = "" ∧ p.Kubernetes.Svcacct.Name = ""
      ∧ p.Kubernetes.Svcacct.UID = "" ∧ p.Kubernetes.Pod = none
      ∧ p.Kubernetes.Secret = none ∧ p.Kubernetes.WarnAfter = 0)
    ∧ ∀ (jwt : JwtPackage) (v : validator) (now : Time) (pub : Claims)
        (ns name : String),
        Call.GetSecret ns name ∉ (Validate jwt v now pub NewPrivateClaims).calls
        ∧ Call.GetPod ns name
          ∉ (Validate jwt v now pub NewPrivateClaims).calls := by
  refine ⟨⟨_, rfl, rfl, rfl, rfl, rfl, rfl, rfl⟩,
    fun jwt v now pub ns name => ?_⟩
  unfold NewPrivateClaims
  cases htw : jwt.Validate pub { Time := now } with
  | some err =>
    rw [Validate_calls_of_window_error jwt v now pub _
      (by rw [htw]; exact Option.some_ne_none err)]
    simp
  | none =>
    rw [Validate_calls_of_window jwt v now pub _ htw]
    simp only [secretLookup, podLookup, accountCalls]
    split_ifs <;> simp

/-- C19. A private object of the wrong type is rejected before anything
else: for every `privateObj` that is not a `*privateClaims`, `Validate`
returns no result and the fixed error "service account token claims could not
be validated due to unexpected private claim", and makes no call: it neither
reads the clock, nor runs the time-window check, nor looks anything up; the
outcome is the same for every token layer, store, clock value, public claims
and wrong type. -/
theorem Validate_unexpected_private_claim (jwt : JwtPackage) (v : validator)
    (now : Time) (pub : Claims) (t : String) :
    (Validate jwt v now pub (.other t)).result
      = .error (.errorf
          "service account token claims could not be validated due to unexpected private claim")
    ∧ (Validate jwt v now pub (.other t)).calls = []
    ∧ ∀ (jwt2 : JwtPackage) (v2 : validator) (now2 : Time) (pub2 : Claims)
        (t2 : String),
        Validate jwt2 v2 now2 pub2 (.other t2)
          = Validate jwt v now pub (.other t) :=
  ⟨rfl, rfl, fun _ _ _ _ _ => rfl⟩

/-! ## The rejections -/

/-- C13, as amended. The rejections of `Validate` form a closed set: every
error it returns is one of the kinds the specification lists (`Expired`,
`NotYetValid`, `ClaimValidationFailed(detail)`, `UnexpectedValidationError`,
the propagated account lookup error, `AccountDeleted`, `AccountUIDMismatch`,
`TokenInvalidated`), or the secret-UID error "secret UID (..) does not match
service account secret ref claim (..)", or the pod-UID error "pod UID (..)
does not match service account pod ref claim (..)", or the error for a
private object of the wrong type. -/
theorem Validate_rejections_closed (jwt : JwtPackage) (v : validator)
    (now : Time) (pub : Claims) (privateObj : PrivateObj) (e : GoError)
    (h : (Validate jwt v now pub privateObj).result = .error e) :
    listedRejection v privateObj e
    ∨ (∃ storeUID claimedUID, e = .errorf ("secret UID (" ++ storeUID
        ++ ") does not match service account secret ref claim ("
        ++ claimedUID ++ ")"))
    ∨ (∃ storeUID claimedUID, e = .errorf ("pod UID (" ++ storeUID
        ++ ") does not match service account pod ref claim ("
        ++ claimedUID ++ ")"))
    ∨ e = .errorf
        "service account token claims could not be validated due to unexpected private claim" := by
  cases privateObj with
  | other t =>
    refine Or.inr (Or.inr (Or.inr ?_))
    simpa [Validate] using h.symm
  | claims priv =>
    cases htw : jwt.Validate pub { Time := now } with
    | some err =>
      refine Or.inl ?_
      by_cases h1 : err = .ErrExpired
      · rw [Validate_of_ErrExpired jwt v now pub priv (by rw [htw, h1])] at h
        exact Or.inl (by simpa using h.symm)
      by_cases h2 : err = .ErrNotValidYet
      · rw [Validate_of_ErrNotValidYet jwt v now pub priv (by rw [htw, h2])] at h
        exact Or.inr (Or.inl (by simpa using h.symm))
      by_cases hin : err = .ErrInvalidAudience ∨ err = .ErrInvalidID
          ∨ err = .ErrInvalidIssuer ∨ err = .ErrInvalidSubject
      · rw [Validate_of_invalid_claim jwt v now pub priv err htw hin] at h
        exact Or.inr (Or.inr (Or.inl ⟨err, by simpa using h.symm⟩))
      · simp only [not_or] at hin
        rw [Validate_of_unexpected jwt v now pub priv err htw h1 h2 hin.1
          hin.2.1 hin.2.2.1 hin.2.2.2] at h
        exact Or.inr (Or.inr (Or.inr (Or.inl (by simpa using h.symm))))
    | none =>
      cases hsa : v.getter.GetServiceAccount priv.Kubernetes.Namespace
          priv.Kubernetes.Svcacct.Name with
      | error x =>
        rw [Validate_of_account_error jwt v now pub priv x htw hsa] at h
        have hx : x = e := by simpa using h
        subst hx
        exact Or.inl (Or.inr (Or.inr (Or.inr (Or.inr
          (Or.inl ⟨priv, rfl, hsa⟩)))))
      | ok sa =>
        cases hd : deletedBefore sa.DeletionTimestamp
            (now - jwt.DefaultLeeway) with
        | true =>
          rw [Validate_of_account_deleted jwt v now pub priv sa htw hsa hd] at h
          exact Or.inl (Or.inr (Or.inr (Or.inr (Or.inr (Or.inr
            (Or.inl ⟨_, _, by simpa using h.symm⟩))))))
        | false =>
          by_cases hu : sa.UID = priv.Kubernetes.Svcacct.UID
          · have ha : accountGate v priv (now - jwt.DefaultLeeway) = true := by
              simp [accountGate, hsa, hd, hu]
            rw [Validate_of_account_ok jwt v now pub priv htw ha] at h
            rcases Validate.secret_result_error v priv _ _ e h with k | k | k
            · exact Or.inl (Or.inr (Or.inr (Or.inr (Or.inr (Or.inr
                (Or.inr (Or.inr k)))))))
            · exact Or.inr (Or.inl k)
            · exact Or.inr (Or.inr (Or.inl k))
          · rw [Validate_of_account_uid jwt v now pub priv sa htw hsa hd hu] at h
            exact Or.inl (Or.inr (Or.inr (Or.inr (Or.inr (Or.inr (Or.inr
              (Or.inl ⟨_, _, by simpa using h.symm⟩)))))))

/-- Witness of C13 as amended: a pod claimed with UID `p1` that the store
holds with UID `p2`; the rejection is the pod-UID error. -/
theorem Validate_rejections_closed_witness :
    listedRejection
        (NewValidator (sampleGetter (some ⟨"u1", none⟩) none
          (some ⟨"p2", none⟩)))
        (.claims (sampleClaims none (some ⟨"pod1", "p1"⟩)))
        (.errorf
          "pod UID (p2) does not match service account pod ref claim (p1)")
    ∨ (∃ storeUID claimedUID,
        GoError.errorf
          "pod UID (p2) does not match service account pod ref claim (p1)"
        = .errorf ("secret UID (" ++ storeUID
          ++ ") does not match service account secret ref claim ("
          ++ claimedUID ++ ")"))
    ∨ (∃ storeUID claimedUID,
        GoError.errorf
          "pod UID (p2) does not match service account pod ref claim (p1)"
        = .errorf ("pod UID (" ++ storeUID
          ++ ") does not match service account pod ref claim ("
          ++ claimedUID ++ ")"))
    ∨ GoError.errorf
        "pod UID (p2) does not match service account pod ref claim (p1)"
      = .errorf
        "service account token claims could not be validated due to unexpected private claim" :=
  Validate_rejections_closed (stubJwt minute none)
    (NewValidator (sampleGetter (some ⟨"u1", none⟩) none
      (some ⟨"p2", none⟩)))
    sampleNow (sampleToken none none)
    (.claims (sampleClaims none (some ⟨"pod1", "p1"⟩)))
    (.errorf "pod UID (p2) does not match service account pod ref claim (p1)")
    (by decide)

/-- Counterexample to C13 as stated: three rejections outside the listed
kinds. A secret claimed with UID `s1` and stored with UID `s2` is rejected
with the secret-UID error; a pod claimed with UID `p1` and stored with UID
`p2` is rejected with the pod-UID error; a private object of another type is
rejected with the unexpected-private-claim error. -/
theorem rejections_outside_listed_kinds :
    ((Validate (stubJwt minute none)
        (NewValidator (sampleGetter (some ⟨"u1", none⟩) (some ⟨"s2", none⟩)
          none))
        sampleNow (sampleToken none none)
        (.claims (sampleClaims (some ⟨"sec1", "s1"⟩) none))).result
      = .error (.errorf
          "secret UID (s2) does not match service account secret ref claim (s1)")
      ∧ ¬ listedRejection
        (NewValidator (sampleGetter (some ⟨"u1", none⟩) (some ⟨"s2", none⟩)
          none))
        (.claims (sampleClaims (some ⟨"sec1", "s1"⟩) none))
        (.errorf
          "secret UID (s2) does not match service account secret ref claim (s1)"))
    ∧ ((Validate (stubJwt minute none)
        (NewValidator (sampleGetter (some ⟨"u1", none⟩) none
          (some ⟨"p2", none⟩)))
        sampleNow (sampleToken none none)
        (.claims (sampleClaims none (some ⟨"pod1", "p1"⟩)))).result
      = .error (.errorf
          "pod UID (p2) does not match service account pod ref claim (p1)")
      ∧ ¬ listedRejection
        (NewValidator (sampleGetter (some ⟨"u1", none⟩) none
          (some ⟨"p2", none⟩)))
        (.claims (sampleClaims none (some ⟨"pod1", "p1"⟩)))
        (.errorf
          "pod UID (p2) does not match service account pod ref claim (p1)"))
    ∧ ((Validate (stubJwt minute none)
        (NewValidator (sampleGetter (some ⟨"u1", none⟩) none none))
        sampleNow (sampleToken none none) (.other "string")).result
      = .error (.errorf
          "service account token claims could not be validated due to unexpected private claim")
      ∧ ¬ listedRejection
        (NewValidator (sampleGetter (some ⟨"u1", none⟩) none none))
        (.other "string")
        (.errorf
          "service account token claims could not be validated due to unexpected private claim")) := by
  refine ⟨⟨by decide, ?_⟩, ⟨by decide, ?_⟩, ⟨by decide, ?_⟩⟩
  · refine not_listedRejection_errorf _ _ _ (by decide) (by decide)
      (by decide) (fun priv hp => ?_) (by decide) (fun x y c => ?_)
      (by decide)
    · cases hp
      decide
    · have c2 := congrArg String.data c
      simp [String.data_append] at c2
  · refine not_listedRejection_errorf _ _ _ (by decide) (by decide)
      (by decide) (fun priv hp => ?_) (by decide) (fun x y c => ?_)
      (by decide)
    · cases hp
      decide
    · have c2 := congrArg String.data c
      simp [String.data_append] at c2
  · refine not_listedRejection_errorf _ _ _ (by decide) (by decide)
      (by decide) (fun priv hp => ?_) (by decide) (fun x y c => ?_)
      (by decide)
    · cases hp
    · have c2 := congrArg String.data c
      simp [String.data_append] at c2

/-! ## The grace window of bound objects -/

/-- C17. Grace window for bound objects, with the time-window check and the
account gate passed. A claimed secret that is found with the claimed UID is
treated as gone, with the error "service account token has been
invalidated", when its deletion timestamp is strictly before `now - leeway`;
when the timestamp is absent or at or after `now - leeway` the run goes on to
the pod (all planned lookups are made) and succeeds if the pod gate passes;
so with a passing pod gate the rejection occurs exactly when the secret was
deleted before `now - leeway`. Likewise, with the secret gate passed, a
claimed pod that is found with the claimed UID is rejected with that error
exactly when its deletion timestamp is strictly before `now - leeway`, and
otherwise `Validate` succeeds with the claimed identifiers. -/
theorem Validate_binding_grace (jwt : JwtPackage) (v : validator)
    (now : Time) (pub : Claims) (priv : privateClaims) (sa : ServiceAccount)
    (htw : jwt.Validate pub { Time := now } = none)
    (hsa : v.getter.GetServiceAccount priv.Kubernetes.Namespace
        priv.Kubernetes.Svcacct.Name = .ok sa)
    (hlive : ∀ d, sa.DeletionTimestamp = some d → now - jwt.DefaultLeeway ≤ d)
    (huid : sa.UID = priv.Kubernetes.Svcacct.UID) :
    (∀ secref secret, priv.Kubernetes.Secret = some secref →
      v.getter.GetSecret priv.Kubernetes.Namespace secref.Name = .ok secret →
      secret.UID = secref.UID →
      ((∃ d, secret.DeletionTimestamp = some d ∧ d < now - jwt.DefaultLeeway) →
        (Validate jwt v now pub (.claims priv)).result
          = .error (.errorf "service account token has been invalidated"))
      ∧ ((∀ d, secret.DeletionTimestamp = some d →
            now - jwt.DefaultLeeway ≤ d) →
        (Validate jwt v now pub (.claims priv)).storeCalls
            = plannedLookups priv
        ∧ (podGate v priv (now - jwt.DefaultLeeway) = true →
          ∃ info, (Validate jwt v now pub (.claims priv)).result = .ok info))
      ∧ (podGate v priv (now - jwt.DefaultLeeway) = true →
        ((Validate jwt v now pub (.claims priv)).result
            = .error (.errorf "service account token has been invalidated")
          ↔ ∃ d, secret.DeletionTimestamp = some d
              ∧ d < now - jwt.DefaultLeeway)))
    ∧ (∀ podref pod, secretGate v priv (now - jwt.DefaultLeeway) = true →
      priv.Kubernetes.Pod = some podref →
      v.getter.GetPod priv.Kubernetes.Namespace podref.Name = .ok pod →
      pod.UID = podref.UID →
      ((Validate jwt v now pub (.claims priv)).result
          = .error (.errorf "service account token has been invalidated")
        ↔ ∃ d, pod.DeletionTimestamp = some d ∧ d < now - jwt.DefaultLeeway)
      ∧ ((∀ d, pod.DeletionTimestamp = some d → now - jwt.DefaultLeeway ≤ d) →
        (Validate jwt v now pub (.claims priv)).result
          = .ok
            { Namespace := priv.Kubernetes.Namespace
              Name := priv.Kubernetes.Svcacct.Name
              UID := priv.Kubernetes.Svcacct.UID
              PodName := podref.Name
              PodUID := podref.UID })) := by
  have ha := (accountGate_eq_true_iff v priv (now - jwt.DefaultLeeway)).2
    ⟨sa, hsa, hlive, huid⟩
  constructor
  · intro secref secret hs hg hu
    have hgone : (∃ d, secret.DeletionTimestamp = some d
          ∧ d < now - jwt.DefaultLeeway) →
        (Validate jwt v now pub (.claims priv)).result
          = .error (.errorf "service account token has been invalidated") := by
      intro hdel
      rw [Validate_of_account_ok jwt v now pub priv htw ha,
        Validate.secret_of_deleted v priv _ _ secref secret hs hg
          ((deletedBefore_eq_true_iff _ _).2 hdel)]
      rfl
    have hgate : (∀ d, secret.DeletionTimestamp = some d →
          now - jwt.DefaultLeeway ≤ d) →
        secretGate v priv (now - jwt.DefaultLeeway) = true := by
      intro hl
      exact (secretGate_eq_true_iff v priv _).2 (fun r hr => by
        rw [hs] at hr
        cases hr
        exact ⟨secret, hg, hl, hu⟩)
    refine ⟨hgone, fun hl => ⟨?_, fun hp => ?_⟩, fun hp => ⟨fun hr => ?_, hgone⟩⟩
    · rw [Validate_storeCalls_of_window jwt v now pub priv htw]
      simp [ha, hgate hl, plannedLookups]
    · rw [Validate_of_gates jwt v now pub priv htw ha (hgate hl) hp]
      exact ⟨_, rfl⟩
    · by_contra hnot
      have hl := (not_deleted_iff _ _).1 hnot
      rw [Validate_of_gates jwt v now pub priv htw ha (hgate hl) hp] at hr
      simp at hr
  · intro podref pod hsg hp hg hu
    have hpass : (∀ d, pod.DeletionTimestamp = some d →
          now - jwt.DefaultLeeway ≤ d) →
        (Validate jwt v now pub (.claims priv)).result
          = .ok
            { Namespace := priv.Kubernetes.Namespace
              Name := priv.Kubernetes.Svcacct.Name
              UID := priv.Kubernetes.Svcacct.UID
              PodName := podref.Name
              PodUID := podref.UID } := by
      intro hl
      have hpg : podGate v priv (now - jwt.DefaultLeeway) = true :=
        (podGate_eq_true_iff v priv _).2 (fun r hr => by
          rw [hp] at hr
          cases hr
          exact ⟨pod, hg, hl, hu⟩)
      rw [Validate_of_gates jwt v now pub priv htw ha hsg hpg, hp]
    refine ⟨⟨fun hr => ?_, fun hdel => ?_⟩, hpass⟩
    · by_contra hnot
      rw [hpass ((not_deleted_iff _ _).1 hnot)] at hr
      simp at hr
    · rw [Validate_of_account_ok jwt v now pub priv htw ha,
        Validate.secret_of_gate v priv _ _ hsg,
        Validate.pod_of_deleted v priv _ _ podref pod hp hg
          ((deletedBefore_eq_true_iff _ _).2 hdel)]
      rfl

/-- Witness of C17: the pod `pod1` with UID `p1`, deleted one second before
`now - leeway`, is rejected; deleted exactly at `now - leeway`, it passes. -/
theorem Validate_binding_grace_witness :
    (Validate (stubJwt minute none)
        (NewValidator (sampleGetter (some ⟨"u1", none⟩) none
          (some ⟨"p1", some (sampleNow - minute - second)⟩)))
        sampleNow (sampleToken none none)
        (.claims (sampleClaims none (some ⟨"pod1", "p1"⟩)))).result
      = .error (.errorf "service account token has been invalidated")
    ∧ (Validate (stubJwt minute none)
        (NewValidator (sampleGetter (some ⟨"u1", none⟩) none
          (some ⟨"p1", some (sampleNow - minute)⟩)))
        sampleNow (sampleToken none none)
        (.claims (sampleClaims none (some ⟨"pod1", "p1"⟩)))).result
      = .ok ⟨"ns1", "sa1", "u1", "pod1", "p1"⟩ :=
  ⟨((Validate_binding_grace (stubJwt minute none)
      (NewValidator (sampleGetter (some ⟨"u1", none⟩) none
        (some ⟨"p1", some (sampleNow - minute - second)⟩)))
      sampleNow (sampleToken none none)
      (sampleClaims none (some ⟨"pod1", "p1"⟩)) ⟨"u1", none⟩
      rfl (by decide) (by simp) rfl).2 ⟨"pod1", "p1"⟩
      ⟨"p1", some (sampleNow - minute - second)⟩ (by decide) rfl (by decide)
      rfl).1.2 ⟨sampleNow - minute - second, rfl, by decide⟩,
    ((Validate_binding_grace (stubJwt minute none)
      (NewValidator (sampleGetter (some ⟨"u1", none⟩) none
        (some ⟨"p1", some (sampleNow - minute)⟩)))
      sampleNow (sampleToken none none)
      (sampleClaims none (some ⟨"pod1", "p1"⟩)) ⟨"u1", none⟩
      rfl (by decide) (by simp) rfl).2 ⟨"pod1", "p1"⟩
      ⟨"p1", some (sampleNow - minute)⟩ (by decide) rfl (by decide)
      rfl).2 (fun d hd => by
        have : sampleNow - minute = d := by simpa using hd
        subst this
        decide)⟩

end Auth
